import Mathlib

/-!
Shallow embedding of the MCO stay classifier
(`src/libdrd/a_classifier.cc`) and proofs about it.

Conventions of the embedding:
* machine integers are modelled as `Int` (or `Nat` for unsigned bytes,
  bit masks, error codes and priorities); the one place the source
  truncates to `int16_t` is modelled with an explicit `wrap16`;
* C++ struct types missing from `src/` (declared in `a_classifier.hh`,
  `d_tables.hh`, `kutil.hh`) are reconstructed from their use in
  `a_classifier.cc` and from the sibling headers
  `mco_tables.hh` / `mco_classifier.hh`; the few lookup routines whose
  bodies are not in `src/` are modelled from the spec and marked so;
* `SetError` only ever appends to the error state and its boolean
  result depends only on its `error` argument, so the stages of the
  pipeline are embedded in writer style: they return the ordered list
  of `(error, priority)` emissions, and the error-set state is obtained
  by folding `SetError` over that list;
* failed `Assert`s on malformed reference tables (out-of-range byte or
  node indices) are modelled by total reads returning defaults.
-/

/-- Modelled from the spec: calendar dates (`kutil.hh` `Date` is not under
`src/`); a null date is all-zero, day arithmetic and ordering go through
the standard civil-days formula. -/
structure Date where
  year : Int
  month : Int
  day : Int
deriving DecidableEq

def Date.null : Date := ⟨0, 0, 0⟩

def Date.isNull (d : Date) : Bool := d = Date.null

def Date.isLeapYear (y : Int) : Bool :=
  (y % 4 = 0 && y % 100 != 0) || y % 400 = 0

def Date.daysInMonth (y m : Int) : Int :=
  if m = 2 then (if Date.isLeapYear y then 29 else 28)
  else if m = 4 || m = 6 || m = 9 || m = 11 then 30
  else 31

def Date.IsValid (d : Date) : Bool :=
  1 ≤ d.month && d.month ≤ 12 && 1 ≤ d.day && d.day ≤ Date.daysInMonth d.year d.month

/-- Day number of a civil date (floor-division form of the standard
days-from-civil algorithm). -/
def Date.toDays (d : Date) : Int :=
  let y := if d.month ≤ 2 then d.year - 1 else d.year
  let era := y.fdiv 400
  let yoe := y - era * 400
  let mp := (d.month + 9).emod 12
  let doy := (153 * mp + 2).fdiv 5 + d.day - 1
  let doe := yoe * 365 + yoe.fdiv 4 - yoe.fdiv 100 + doy
  era * 146097 + doe - 719468

def Date.sub (a b : Date) : Int := a.toDays - b.toDays

def Date.dle (a b : Date) : Bool := a.toDays ≤ b.toDays

def Date.dlt (a b : Date) : Bool := a.toDays < b.toDays

/-- Entry information of a stay (mode and origin are raw character
codes, e.g. 48 for '0', 54 for '6', 55 for '7', 56 for '8', 82 for 'R'). -/
structure StayEntry where
  date : Date
  mode : Int
  origin : Int
deriving DecidableEq

/-- Exit information of a stay (mode and destination are raw character
codes; 57 is '9', death). -/
structure StayExit where
  date : Date
  mode : Int
  destination : Int
deriving DecidableEq

/-- One procedure realisation attached to a stay. -/
structure ProcedureRealisation where
  proc : String
  phase : Int
  activities : Nat
  count : Int
  date : Date
deriving DecidableEq

/-- Structural-error flags set by upstream parsing (`Stay::Error` bit
mask, one named flag per bit). -/
structure StayErrorMask where
  malformedSex : Bool
  malformedBirthdate : Bool
  malformedEntryDate : Bool
  malformedEntryMode : Bool
  malformedEntryOrigin : Bool
  malformedExitDate : Bool
  malformedExitMode : Bool
  malformedExitDestination : Bool
  malformedSessionCount : Bool
  malformedMainDiagnosis : Bool
  malformedLinkedDiagnosis : Bool
  malformedAssociatedDiagnosis : Bool
  malformedNewbornWeight : Bool
deriving DecidableEq

def StayErrorMask.clear : StayErrorMask :=
  ⟨false, false, false, false, false, false, false,
   false, false, false, false, false, false⟩

/-- One admission record (`Stay`); sex is 0 (male) or 1 (female), per
the `StaticAssert((int)Sex::Male == 0)` in a_classifier.cc; diagnosis
codes are strings, an empty string is the null code. -/
structure Stay where
  bill_id : Int
  stay_id : Int
  sex : Int
  birthdate : Date
  entry : StayEntry
  exit : StayExit
  unit : Int
  bed_authorization : Int
  session_count : Int
  igs2 : Int
  gestational_age : Int
  newborn_weight : Int
  error_mask : StayErrorMask
  main_diagnosis : String
  linked_diagnosis : String
  diagnoses : List String
  procedures : List ProcedureRealisation
deriving DecidableEq

def diagIsValid (s : String) : Bool := s ≠ ""

/-- Character-by-character prefix loop of `DiagnosisCode::Matches`. -/
def diagMatchesAux : List Char → List Char → Bool
  | _, [] => true
  | [], _ :: _ => false
  | c :: cs, p :: ps => if c = p then diagMatchesAux cs ps else false

def diagMatches (s pat : String) : Bool := diagMatchesAux s.data pat.data

/-- GHM code split in its four parts (`cmd`, letter, sequence, mode
letter); letters are raw character codes, 0 when absent. -/
structure GhmCode where
  cmd : Int
  typ : Int
  seq : Int
  mode : Int
deriving DecidableEq

def GhmCode.zero : GhmCode := ⟨0, 0, 0, 0⟩

def GhmCode.IsValid (g : GhmCode) : Bool := g ≠ GhmCode.zero

/-- Modelled from the spec: the sentinel GHMs ("90Z00Z", "90Z03Z") are
the codes of CMD 90, and `GhmCode::IsError` (defined in the missing
header) recognises them by that CMD. -/
def GhmCode.IsError (g : GhmCode) : Bool := g.cmd = 90

def ghm90Z00Z : GhmCode := ⟨90, 90, 0, 90⟩

def ghm90Z03Z : GhmCode := ⟨90, 90, 3, 90⟩

structure GhmRootCode where
  cmd : Int
  typ : Int
  seq : Int
deriving DecidableEq

def GhmCode.Root (g : GhmCode) : GhmRootCode := ⟨g.cmd, g.typ, g.seq⟩

/-- Error set: bitset of recorded codes (modelled as the list of codes
set so far), plus the main error and its priority. -/
structure ClassifyErrorSet where
  main_error : Nat
  priority : Nat
  errors : List Nat
deriving DecidableEq

def ClassifyErrorSet.empty : ClassifyErrorSet := ⟨0, 0, []⟩

/-- State transformer of `SetError` (a_classifier.cc:229); the `Bool`
is the C++ return value. -/
def SetError (error_set : ClassifyErrorSet) (error : Nat) (priority : Nat) :
    Bool × ClassifyErrorSet :=
  if error = 0 then (true, error_set)
  else
    let es :=
      if error_set.main_error = 0 ∨ priority > error_set.priority ∨
          error < error_set.main_error then
        { error_set with main_error := error, priority := priority }
      else error_set
    (false, { es with errors := error :: es.errors })

/-- One deferred `SetError` call: error code and priority. -/
abbrev Emission := Nat × Nat

/-- Writer-style view of a `SetError` call: the boolean result (which
depends only on the error code) and the emission it records. -/
def setErrorW (error : Nat) (priority : Nat) : Bool × List Emission :=
  if error = 0 then (true, []) else (false, [(error, priority)])

/-- Replay a list of deferred `SetError` calls against an error-set
state, in order. -/
def applyEmissions (es : ClassifyErrorSet) (ems : List Emission) : ClassifyErrorSet :=
  ems.foldl (fun s e => (SetError s e.1 e.2).2) es

/-- Cluster modes of the classifier (`ClusterMode`). -/
inductive ClusterMode where
  | StayModes
  | BillId
  | Disable
deriving DecidableEq

/-- Compatibility test between consecutive stays
(a_classifier.cc:98, `AreStaysCompatible`). -/
def AreStaysCompatible (stay1 stay2 : Stay) (cluster_mode : ClusterMode) : Bool :=
  match cluster_mode with
  | .StayModes =>
      stay1.session_count = 0 && stay2.stay_id = stay1.stay_id &&
      stay2.session_count = 0 && (stay2.entry.mode = 54 || stay2.entry.mode = 48)
  | .BillId => stay2.bill_id = stay1.bill_id
  | .Disable => false

/-- Length (minus one) of the compatible run starting after `prev`,
i.e. the number of loop iterations of `Cluster`. -/
def clusterRun (cluster_mode : ClusterMode) : Stay → List Stay → Nat
  | _, [] => 0
  | prev, s :: rest =>
      if AreStaysCompatible prev s cluster_mode then 1 + clusterRun cluster_mode s rest
      else 0

/-- Clustering step (a_classifier.cc:114, `Cluster`): longest
compatible prefix and the remainder. -/
def Cluster (stays : List Stay) (cluster_mode : ClusterMode) : List Stay × List Stay :=
  match stays with
  | [] => ([], [])
  | s :: rest =>
      let n := clusterRun cluster_mode s rest
      (s :: rest.take n, rest.drop n)

/-- Repeated clustering until the input is exhausted, as `ClassifyRaw`
drives it. -/
def ClusterAll (cluster_mode : ClusterMode) : List Stay → List (List Stay)
  | [] => []
  | s :: rest =>
      let n := clusterRun cluster_mode s rest
      (s :: rest.take n) :: ClusterAll cluster_mode (rest.drop n)
termination_by stays => stays.length
decreasing_by
  simp only [List.length_cons, List.length_drop]
  omega

/-- GHS price entry (`GhsPriceInfo`); flag bit 0 is `ExbOnce`. -/
structure GhsPriceInfo where
  ghs : Int
  price_cents : Int
  exh_treshold : Int
  exb_treshold : Int
  exh_cents : Int
  exb_cents : Int
  flags : Nat
deriving DecidableEq

/-- Pricing of one GHS (a_classifier.cc:1564, `PriceGhs`). -/
def PriceGhs (price_info : GhsPriceInfo) (duration : Int) (death : Bool) : Int :=
  let died : Int := if death then 1 else 0
  if duration < price_info.exb_treshold && !death then
    if price_info.flags &&& 1 ≠ 0 then
      price_info.price_cents - price_info.exb_cents
    else
      price_info.price_cents - price_info.exb_cents * (price_info.exb_treshold - duration)
  else if duration + died > price_info.exh_treshold then
    price_info.price_cents + price_info.exh_cents * (duration + died - price_info.exh_treshold)
  else
    price_info.price_cents

/-! ### Claim C9 (part): SetError with code 0 -/

/-- Per-diagnosis attribute block (`DiagnosisInfo::Attributes`): 37 raw
bytes plus the decoded cmd/jump/severity fields. -/
structure DiagAttributes where
  raw : List Nat
  cmd : Nat
  jump : Nat
  severity : Nat
deriving DecidableEq

/-- Byte/offset mask pair (`ListMask`). -/
structure ListMask where
  offset : Nat
  value : Nat
deriving DecidableEq

/-- Dictionary entry for one diagnosis code (`DiagnosisInfo`). -/
structure DiagnosisInfo where
  diag : String
  attributes1 : DiagAttributes
  attributes2 : DiagAttributes
  warnings : Nat
  exclusion_set_idx : Nat
  cma_exclusion_mask : ListMask
deriving DecidableEq

/-- Attribute block for a sex (`DiagnosisInfo::Attributes(sex)`); sex 0
is male, 1 is female; any other value (only reachable on structurally
invalid stays) is modelled as reading the male block. -/
def DiagnosisInfo.attrs (d : DiagnosisInfo) (sex : Int) : DiagAttributes :=
  if sex = 1 then d.attributes2 else d.attributes1

def DiagAttributes.byte (a : DiagAttributes) (idx : Nat) : Nat := a.raw.getD idx 0

/-! ### Reference-table model -/

/-- Dictionary entry for one procedure code and phase (`ProcedureInfo`). -/
structure ProcedureInfo where
  proc : String
  phase : Int
  activities : Nat
  limit_date0 : Date
  limit_date1 : Date
  bytes : List Nat
deriving DecidableEq

def ProcedureInfo.byte (p : ProcedureInfo) (idx : Nat) : Nat := p.bytes.getD idx 0

/-- Comorbidity exclusion bitset (`ExclusionInfo`). -/
structure ExclusionInfo where
  raw : List Nat
deriving DecidableEq

/-- One node of the GHM decision tree (`GhmDecisionNode`). -/
inductive GhmDecisionNode where
  | test (function : Nat) (param0 param1 : Nat) (children_count : Int) (children_idx : Nat)
  | ghm (ghm : GhmCode) (error : Nat)
deriving DecidableEq

/-- Two-dimensional lookup cell (`ValueRangeCell<2>`). -/
structure ValueRangeCell where
  min0 : Int
  max0 : Int
  min1 : Int
  max1 : Int
  value : Int
deriving DecidableEq

def ValueRangeCell.test0 (c : ValueRangeCell) (v : Int) : Bool := c.min0 ≤ v && v < c.max0

def ValueRangeCell.test1 (c : ValueRangeCell) (v : Int) : Bool := c.min1 ≤ v && v < c.max1

/-- Per-GHM-root severity policy (`GhmRootInfo`). -/
structure GhmRootInfo where
  ghm_root : GhmRootCode
  confirm_duration_treshold : Int
  allow_ambulatory : Bool
  short_duration_treshold : Int
  young_severity_limit : Int
  young_age_treshold : Int
  old_severity_limit : Int
  old_age_treshold : Int
  childbirth_severity_list : Nat
  cma_exclusion_mask : ListMask
deriving DecidableEq

/-- One GHS eligibility rule (`GhsAccessInfo`); the two GHS numbers are
for the public and private sectors. -/
structure GhsAccessInfo where
  ghm : GhmCode
  ghs_public : Int
  ghs_private : Int
  bed_authorization : Int
  unit_authorization : Int
  minimal_duration : Int
  minimal_age : Int
  main_diagnosis_mask : ListMask
  diagnosis_mask : ListMask
  procedure_masks : List ListMask
deriving DecidableEq

/-- Authorization reference entry (`AuthorizationInfo`); scope 0 is
Facility, 1 Unit, 2 Bed. -/
structure AuthorizationInfo where
  scope : Nat
  code : Int
  function : Nat
deriving DecidableEq

/-- One unit authorization of the facility (`Authorization`). -/
structure Authorization where
  unit : Int
  type : Int
  date0 : Date
  date1 : Date
deriving DecidableEq

/-- Diagnosis-procedure cross-reference pair (`SrcPair`). -/
structure SrcPair where
  diag : String
  proc : String
deriving DecidableEq

/-- Modelled from the spec: the per-category supplement counters
(`SupplementCounters`, declared in a header not under `src/`); one
counter per supplement category used by `CountSupplements`. -/
structure SupplementCounters where
  rea : Int
  reasi : Int
  si : Int
  src : Int
  nn1 : Int
  nn2 : Int
  nn3 : Int
  rep : Int
deriving DecidableEq

def SupplementCounters.zero : SupplementCounters := ⟨0, 0, 0, 0, 0, 0, 0, 0⟩

/-- Counter values in the fixed category order used for the day/price
dot product. -/
def SupplementCounters.values (c : SupplementCounters) : List Int :=
  [c.rea, c.reasi, c.si, c.src, c.nn1, c.nn2, c.nn3, c.rep]

/-- Reference data valid for one date range (`TableIndex`). -/
structure TableIndex where
  limit_date0 : Date
  limit_date1 : Date
  ghm_nodes : List GhmDecisionNode
  diagnoses : List DiagnosisInfo
  exclusions : List ExclusionInfo
  procedures : List ProcedureInfo
  ghm_roots : List GhmRootInfo
  gnn_cells : List ValueRangeCell
  cma_cells1 : List ValueRangeCell
  cma_cells2 : List ValueRangeCell
  cma_cells3 : List ValueRangeCell
  ghs : List GhsAccessInfo
  authorizations : List AuthorizationInfo
  src_pairs0 : List SrcPair
  src_pairs1 : List SrcPair
  ghs_prices : List GhsPriceInfo
  supplement_prices : SupplementCounters
deriving DecidableEq

def defaultDiagnosisInfo : DiagnosisInfo :=
  ⟨"", ⟨[], 0, 0, 0⟩, ⟨[], 0, 0, 0⟩, 0, 0, ⟨0, 0⟩⟩

def defaultProcedureInfo : ProcedureInfo := ⟨"", 0, 0, Date.null, Date.null, []⟩

def defaultExclusionInfo : ExclusionInfo := ⟨[]⟩

/-- Modelled from the spec: `TableIndex::FindDiagnosis` (`d_tables.cc`
is not under `src/`) finds the dictionary entry of a diagnosis code;
the returned position into the index's array stands for the C++
pointer. -/
def TableIndex.FindDiagnosisIdx (idx : TableIndex) (diag : String) : Option Nat :=
  idx.diagnoses.findIdx? (fun d => d.diag = diag)

def TableIndex.diagAt (idx : TableIndex) (i : Nat) : DiagnosisInfo :=
  idx.diagnoses.getD i defaultDiagnosisInfo

def TableIndex.FindDiagnosis (idx : TableIndex) (diag : String) : Option DiagnosisInfo :=
  (idx.FindDiagnosisIdx diag).map idx.diagAt

/-- Modelled from the spec: `TableIndex::FindProcedure` by code, phase
and validity date range (`d_tables.cc` is not under `src/`). -/
def TableIndex.FindProcedureIdx (idx : TableIndex) (proc : String) (phase : Int)
    (date : Date) : Option Nat :=
  idx.procedures.findIdx? (fun p =>
    p.proc = proc && p.phase = phase && p.limit_date0.dle date && date.dle p.limit_date1)

def TableIndex.procAt (idx : TableIndex) (i : Nat) : ProcedureInfo :=
  idx.procedures.getD i defaultProcedureInfo

def TableIndex.FindProcedure (idx : TableIndex) (proc : String) (phase : Int)
    (date : Date) : Option ProcedureInfo :=
  (idx.FindProcedureIdx proc phase date).map idx.procAt

/-- Modelled from the spec: the all-phases lookup
`TableIndex::FindProcedure(ProcedureCode)`. -/
def TableIndex.FindProceduresByCode (idx : TableIndex) (proc : String) :
    List ProcedureInfo :=
  idx.procedures.filter (fun p => p.proc = proc)

/-- Modelled from the spec: `TableIndex::FindGhmRoot`. -/
def TableIndex.FindGhmRoot (idx : TableIndex) (root : GhmRootCode) : Option GhmRootInfo :=
  idx.ghm_roots.find? (fun r => r.ghm_root = root)

/-- Modelled from the spec: `TableIndex::FindCompatibleGhs` lists the
access rules of one GHM in stored (priority) order. -/
def TableIndex.FindCompatibleGhs (idx : TableIndex) (ghm : GhmCode) : List GhsAccessInfo :=
  idx.ghs.filter (fun g => g.ghm = ghm)

/-- Modelled from the spec: `TableIndex::FindAuthorization` by scope
and type code. -/
def TableIndex.FindAuthorization (idx : TableIndex) (scope : Nat) (typ : Int) :
    Option AuthorizationInfo :=
  idx.authorizations.find? (fun a => a.scope = scope && a.code = typ)

/-- Modelled from the spec: `TableIndex::FindGhsPrice` for the public
sector. -/
def TableIndex.FindGhsPrice (idx : TableIndex) (ghs : Int) : Option GhsPriceInfo :=
  idx.ghs_prices.find? (fun p => p.ghs = ghs)

/-- Set of table versions (`TableSet`). -/
structure TableSet where
  indexes : List TableIndex
deriving DecidableEq

/-- Modelled from the spec: `TableSet::FindIndex` selects the table
version whose date range contains the date. -/
def TableSet.FindIndex (ts : TableSet) (date : Date) : Option TableIndex :=
  ts.indexes.find? (fun ix => ix.limit_date0.dle date && date.dlt ix.limit_date1)

/-- Authorization set of the facility (`AuthorizationSet`). -/
structure AuthorizationSet where
  authorizations : List Authorization
deriving DecidableEq

/-- Modelled from the spec: `AuthorizationSet::FindUnit(unit, date)`
finds the authorization of a unit valid at a date. -/
def AuthorizationSet.FindUnit (aset : AuthorizationSet) (unit : Int) (date : Date) :
    Option Authorization :=
  aset.authorizations.find? (fun a => a.unit = unit && a.date0.dle date && date.dlt a.date1)

/-- Modelled from the spec: `AuthorizationSet::FindUnit(unit)` lists
every authorization of a unit (used with the facility pseudo-unit
32767). -/
def AuthorizationSet.FindUnitAll (aset : AuthorizationSet) (unit : Int) :
    List Authorization :=
  aset.authorizations.filter (fun a => a.unit = unit)

/-- Merged, validated view of a cluster (`ClassifyAggregate`);
`diagnoses` and `procedures` hold positions into the index's arrays
(the C++ pointers). -/
structure ClassifyAggregate where
  index : TableIndex
  stays : List Stay
  stay : Stay
  age : Int
  age_days : Int
  duration : Int
  diagnoses : List Nat
  procedures : List Nat
  proc_activities : Nat
deriving DecidableEq

def ClassifyAggregate.diagInfos (agg : ClassifyAggregate) : List DiagnosisInfo :=
  agg.diagnoses.map agg.index.diagAt

def ClassifyAggregate.procInfos (agg : ClassifyAggregate) : List ProcedureInfo :=
  agg.procedures.map agg.index.procAt

/-! ### Byte-test helpers (a_classifier.cc:27-96) -/

def GetDiagnosisByteInfo (sex : Int) (diag_info : DiagnosisInfo) (byte_idx : Nat) : Nat :=
  (diag_info.attrs sex).byte byte_idx

def GetDiagnosisByte (idx : TableIndex) (sex : Int) (diag : String) (byte_idx : Nat) : Nat :=
  match idx.FindDiagnosis diag with
  | none => 0
  | some d => GetDiagnosisByteInfo sex d byte_idx

def TestDiagnosisInfo (sex : Int) (diag_info : DiagnosisInfo) (offset value : Nat) : Bool :=
  GetDiagnosisByteInfo sex diag_info offset &&& value ≠ 0

def TestDiagnosis (idx : TableIndex) (sex : Int) (diag : String) (offset value : Nat) : Bool :=
  GetDiagnosisByte idx sex diag offset &&& value ≠ 0

def TestProcedureInfo (proc_info : ProcedureInfo) (offset value : Nat) : Bool :=
  proc_info.byte offset &&& value ≠ 0

def GetProcedureByte (idx : TableIndex) (exit_date : Date) (proc : ProcedureRealisation)
    (byte_idx : Nat) : Nat :=
  match idx.FindProcedure proc.proc proc.phase exit_date with
  | none => 0
  | some p => p.byte byte_idx

def TestProcedure (idx : TableIndex) (exit_date : Date) (proc : ProcedureRealisation)
    (offset value : Nat) : Bool :=
  GetProcedureByte idx exit_date proc offset &&& value ≠ 0

/-! ### GHM decision-tree interpreter (a_classifier.cc:773-1107) -/

/-- Mutable traversal state (`RunGhmTreeContext`): swappable main and
linked diagnosis, lazily computed GNN code. -/
structure RunGhmTreeContext where
  main_diagnosis : String
  linked_diagnosis : String
  gnn : Int
deriving DecidableEq

def makeUInt16 (hi lo : Nat) : Nat := hi * 256 + lo

/-- Loop of test function 9: every marker procedure must match the
mask, and at least one marker procedure must exist. -/
def ghmTest9 (p0 p1 : Nat) : List ProcedureInfo → Int → Int
  | [], res => res
  | pi :: ps, res =>
      if TestProcedureInfo pi 0 128 then
        if TestProcedureInfo pi p0 p1 then ghmTest9 p0 p1 ps 1 else 0
      else ghmTest9 p0 p1 ps res

/-- Loop of test function 10: at least two procedures match the mask. -/
def ghmTest10 (p0 p1 : Nat) : List ProcedureInfo → Nat → Int
  | [], _ => 0
  | pi :: ps, cnt =>
      if TestProcedureInfo pi p0 p1 then
        if cnt + 1 ≥ 2 then 1 else ghmTest10 p0 p1 ps (cnt + 1)
      else ghmTest10 p0 p1 ps cnt

/-- Loop of test function 18: at least two matching diagnoses of which
at least one is neither the main nor the linked diagnosis. -/
def ghmTest18 (sex : Int) (main linked : String) (p0 p1 : Nat) :
    List DiagnosisInfo → Nat → Nat → Int
  | [], _, _ => 0
  | d :: ds, cnt, special =>
      if TestDiagnosisInfo sex d p0 p1 then
        let m := cnt + 1
        let sm := if d.diag = main ∨ d.diag = linked then special + 1 else special
        if m ≥ 2 ∧ m > sm then 1 else ghmTest18 sex main linked p0 p1 ds m sm
      else ghmTest18 sex main linked p0 p1 ds cnt special

/-- Numbered test functions of the decision tree
(a_classifier.cc:773, `ExecuteGhmTest`); result, updated context and
deferred `SetError` calls; -1 is the unknown-test result. -/
def ExecuteGhmTest (agg : ClassifyAggregate) (ctx : RunGhmTreeContext)
    (function p0 p1 : Nat) : Int × RunGhmTreeContext × List Emission :=
  match function with
  | 0 => ((GetDiagnosisByte agg.index agg.stay.sex ctx.main_diagnosis p0 : Int), ctx, [])
  | 1 => ((GetDiagnosisByte agg.index agg.stay.sex ctx.main_diagnosis p0 : Int), ctx, [])
  | 2 =>
      (if agg.procInfos.any (fun p => TestProcedureInfo p p0 p1) then 1 else 0, ctx, [])
  | 3 =>
      (if p1 = 1 then (if agg.age_days > (p0 : Int) then 1 else 0)
       else (if agg.age > (p0 : Int) then 1 else 0), ctx, [])
  | 5 =>
      (if TestDiagnosis agg.index agg.stay.sex ctx.main_diagnosis p0 p1 then 1 else 0,
       ctx, [])
  | 6 =>
      (if agg.diagInfos.any (fun d =>
          ¬ (d.diag = ctx.main_diagnosis ∨ d.diag = ctx.linked_diagnosis) ∧
          TestDiagnosisInfo agg.stay.sex d p0 p1) then 1 else 0, ctx, [])
  | 7 =>
      (if agg.diagInfos.any (fun d => TestDiagnosisInfo agg.stay.sex d p0 p1) then 1
       else 0, ctx, [])
  | 9 => (ghmTest9 p0 p1 agg.procInfos 0, ctx, [])
  | 10 => (ghmTest10 p0 p1 agg.procInfos 0, ctx, [])
  | 13 =>
      (if GetDiagnosisByte agg.index agg.stay.sex ctx.main_diagnosis p0 = p1 then 1
       else 0, ctx, [])
  | 14 => (if agg.stay.sex = (p0 : Int) - 49 then 1 else 0, ctx, [])
  | 18 => (ghmTest18 agg.stay.sex ctx.main_diagnosis ctx.linked_diagnosis p0 p1
             agg.diagInfos 0 0, ctx, [])
  | 19 =>
      (match p1 with
       | 0 => if agg.stay.exit.mode = 48 + (p0 : Int) then 1 else 0
       | 1 => if agg.stay.exit.destination = 48 + (p0 : Int) then 1 else 0
       | 2 => if agg.stay.entry.mode = 48 + (p0 : Int) then 1 else 0
       | 3 => if agg.stay.entry.origin = 48 + (p0 : Int) then 1 else 0
       | _ => -1, ctx, [])
  | 20 => (0, ctx, [])
  | 22 => (if agg.duration < (makeUInt16 p0 p1 : Int) then 1 else 0, ctx, [])
  | 26 =>
      (if TestDiagnosis agg.index agg.stay.sex agg.stay.linked_diagnosis p0 p1 then 1
       else 0, ctx, [])
  | 28 => (0, ctx, (setErrorW p0 1).2)
  | 29 => (if agg.duration = (makeUInt16 p0 p1 : Int) then 1 else 0, ctx, [])
  | 30 => (if agg.stay.session_count = (makeUInt16 p0 p1 : Int) then 1 else 0, ctx, [])
  | 33 => (if agg.proc_activities &&& (1 <<< p0) ≠ 0 then 1 else 0, ctx, [])
  | 34 =>
      let ctx' :=
        if diagIsValid ctx.linked_diagnosis ∧
            ctx.linked_diagnosis = agg.stay.linked_diagnosis then
          match agg.index.FindDiagnosis ctx.linked_diagnosis with
          | some dinfo =>
              if (dinfo.attrs agg.stay.sex).cmd ≠ 0 ∨ (dinfo.attrs agg.stay.sex).jump ≠ 3 then
                { ctx with main_diagnosis := ctx.linked_diagnosis,
                           linked_diagnosis := ctx.main_diagnosis }
              else ctx
          | none => ctx
        else ctx
      (0, ctx', [])
  | 35 => (if ctx.main_diagnosis ≠ agg.stay.main_diagnosis then 1 else 0, ctx, [])
  | 36 =>
      (if agg.diagInfos.any (fun d =>
          d.diag ≠ ctx.linked_diagnosis ∧ TestDiagnosisInfo agg.stay.sex d p0 p1) then 1
       else 0, ctx, [])
  | 38 => (if ctx.gnn ≥ (p0 : Int) ∧ ctx.gnn ≤ (p1 : Int) then 1 else 0, ctx, [])
  | 39 =>
      let ctx' :=
        if ctx.gnn = 0 then
          let gest := if agg.stay.gestational_age = 0 then 99 else agg.stay.gestational_age
          match agg.index.gnn_cells.find? (fun c =>
              c.test0 agg.stay.newborn_weight && c.test1 gest) with
          | some cell => { ctx with gnn := cell.value }
          | none => ctx
        else ctx
      (0, ctx', [])
  | 41 =>
      (if agg.diagInfos.any (fun d =>
          (d.attrs agg.stay.sex).cmd = p0 ∧ (d.attrs agg.stay.sex).jump = p1) then 1
       else 0, ctx, [])
  | 42 =>
      (if agg.stay.newborn_weight ≠ 0 ∧ agg.stay.newborn_weight < (makeUInt16 p0 p1 : Int)
       then 1 else 0, ctx, [])
  | 43 =>
      (if agg.diagInfos.any (fun d =>
          d.diag ≠ ctx.linked_diagnosis ∧
          (d.attrs agg.stay.sex).cmd = p0 ∧ (d.attrs agg.stay.sex).jump = p1) then 1
       else 0, ctx, [])
  | _ => (-1, ctx, [])

def ghmRoot14Z08 : GhmRootCode := ⟨14, 90, 8⟩

def date2016_3_1 : Date := ⟨2016, 3, 1⟩

/-- Final GHM-level consistency checks (a_classifier.cc:1025,
`CheckGhmErrors`). -/
def CheckGhmErrors (agg : ClassifyAggregate) (ghm : GhmCode) : Bool × List Emission :=
  let r1 :=
    if ghm.cmd = 28 then
      let ra := if agg.stays.length > 1 then setErrorW 150 1 else (true, [])
      let rb :=
        if date2016_3_1.dle agg.stay.exit.date ∧
            diagMatches agg.stay.main_diagnosis "Z511" ∧
            ¬ diagIsValid agg.stay.linked_diagnosis then
          setErrorW 187 1
        else (true, [])
      (ra.1 && rb.1, ra.2 ++ rb.2)
    else (true, ([] : List Emission))
  let e2 :=
    if date2016_3_1.dle agg.stay.exit.date ∧ ghm.Root = ghmRoot14Z08 then
      if agg.procInfos.any (fun p => p.proc = "JNJD002" || p.proc = "JNJP001") then
        ([] : List Emission)
      else [(179, 0)]
    else []
  (r1.1, r1.2 ++ e2)

/-- Outcome of the traversal loop of `RunGhmTree`. -/
inductive GhmTreeOutcome where
  | reached (ghm : GhmCode)
  | outOfRange
  | fuelOut
deriving DecidableEq

/-- Default node returned for an out-of-bounds node index (the C++
asserts instead); its invalid GHM drives the traversal into the
infinite-loop guard. -/
def defaultGhmNode : GhmDecisionNode := .ghm GhmCode.zero 0

/-- Traversal loop of `RunGhmTree` (a_classifier.cc:1070-1101): the
fuel counter mirrors the loop variable `i` checked against the node
count; returns the outcome, the deferred `SetError` calls in order, and
the number of node visits. -/
def runGhmTreeLoop (agg : ClassifyAggregate) :
    Nat → Nat → RunGhmTreeContext → GhmTreeOutcome × List Emission × Nat
  | 0, _, _ => (.fuelOut, [], 0)
  | fuel + 1, node_idx, ctx =>
      match agg.index.ghm_nodes.getD node_idx defaultGhmNode with
      | .test f p0 p1 cc ci =>
          let r := ExecuteGhmTest agg ctx f p0 p1
          if r.1 < 0 ∨ r.1 ≥ cc then (.outOfRange, r.2.2, 1)
          else
            let r2 := runGhmTreeLoop agg fuel (ci + r.1.toNat) r.2.1
            (r2.1, r.2.2 ++ r2.2.1, r2.2.2 + 1)
      | .ghm g err =>
          let ems := if err ≠ 0 then [(err, 1)] else []
          if g.IsValid then (.reached g, ems, 1)
          else
            let r2 := runGhmTreeLoop agg fuel node_idx ctx
            (r2.1, ems ++ r2.2.1, r2.2.2 + 1)

def initialGhmContext (agg : ClassifyAggregate) : RunGhmTreeContext :=
  ⟨agg.stay.main_diagnosis, agg.stay.linked_diagnosis, 0⟩

/-- Decision-tree interpreter (a_classifier.cc:1061, `RunGhmTree`). -/
def RunGhmTree (agg : ClassifyAggregate) : GhmCode × List Emission :=
  match runGhmTreeLoop agg agg.index.ghm_nodes.length 0 (initialGhmContext agg) with
  | (.fuelOut, ems, _) => (ghm90Z03Z, ems ++ [(4, 2)])
  | (.outOfRange, ems, _) => (ghm90Z03Z, ems ++ [(4, 2)])
  | (.reached g, ems, _) =>
      let c := CheckGhmErrors agg g
      if c.1 then (g, ems ++ c.2) else (ghm90Z00Z, ems ++ c.2)

def emptyStay : Stay :=
  ⟨0, 0, 0, Date.null, ⟨Date.null, 0, 0⟩, ⟨Date.null, 0, 0⟩, 0, 0, 0, 0, 0, 0,
   StayErrorMask.clear, "", "", [], []⟩

def emptyTableIndex : TableIndex :=
  ⟨Date.null, Date.null, [], [], [], [], [], [], [], [], [], [], [], [], [], [],
   SupplementCounters.zero⟩

def emptyAggregate : ClassifyAggregate :=
  ⟨emptyTableIndex, [emptyStay], emptyStay, 0, 0, 0, [], [], 0⟩

/-! ### Severity resolver (a_classifier.cc:761-1212) -/

def LimitSeverityWithDuration (severity duration : Int) : Int :=
  if duration ≥ 3 then min (duration - 2) severity else 0

/-- Cross-exclusion lookup (a_classifier.cc:1109,
`TestDiagnosisExclusion`); an out-of-range exclusion-set index reads an
empty bitset. -/
def TestDiagnosisExclusion (idx : TableIndex) (cma_diag_info main_diag_info : DiagnosisInfo) :
    Bool :=
  let excl := idx.exclusions.getD cma_diag_info.exclusion_set_idx defaultExclusionInfo
  excl.raw.getD main_diag_info.cma_exclusion_mask.offset 0 &&&
    main_diag_info.cma_exclusion_mask.value ≠ 0

def diagStartsWithP (s : String) : Bool :=
  match s.data with
  | [] => false
  | c :: _ => c = 'P'

/-- Comorbidity exclusion test (a_classifier.cc:1123, `TestExclusion`). -/
def TestExclusion (agg : ClassifyAggregate) (ghm_root_info : GhmRootInfo)
    (diag_info main_diag_info : DiagnosisInfo) (linked_diag_info : Option DiagnosisInfo) :
    Bool :=
  if agg.age < 14 ∧ (diag_info.attrs agg.stay.sex).byte 19 &&& 16 ≠ 0 then true
  else if agg.age ≥ 2 ∧
      ((diag_info.attrs agg.stay.sex).byte 19 &&& 8 ≠ 0 ∨ diagStartsWithP diag_info.diag) then
    true
  else if (diag_info.attrs agg.stay.sex).byte ghm_root_info.cma_exclusion_mask.offset &&&
      ghm_root_info.cma_exclusion_mask.value ≠ 0 then true
  else if TestDiagnosisExclusion agg.index diag_info main_diag_info then true
  else
    match linked_diag_info with
    | some l => TestDiagnosisExclusion agg.index diag_info l
    | none => false

/-- Maximum comorbidity severity over the non-main, non-linked
diagnoses (severity loop of `RunGhmSeverity`). -/
def maxComorbiditySeverity (agg : ClassifyAggregate) (ghm_root_info : GhmRootInfo)
    (main_diag_info : DiagnosisInfo) (linked_diag_info : Option DiagnosisInfo) : Int :=
  agg.diagInfos.foldl
    (fun severity d =>
      if d.diag = agg.stay.main_diagnosis ∨ d.diag = agg.stay.linked_diagnosis then severity
      else
        let new_severity := ((d.attrs agg.stay.sex).severity : Int)
        if new_severity > severity ∧
            ¬ TestExclusion agg ghm_root_info d main_diag_info linked_diag_info then
          new_severity
        else severity)
    0

def cmaCellsOf (idx : TableIndex) (list : Nat) : List ValueRangeCell :=
  match list with
  | 1 => idx.cma_cells1
  | 2 => idx.cma_cells2
  | 3 => idx.cma_cells3
  | _ => []

/-- Severity/mode refinement (a_classifier.cc:1148, `RunGhmSeverity`). -/
def RunGhmSeverity (agg : ClassifyAggregate) (ghm : GhmCode) : GhmCode × List Emission :=
  match agg.index.FindGhmRoot ghm.Root with
  | none => (ghm90Z03Z, [(4, 2)])
  | some ghm_root_info =>
      if ghm_root_info.allow_ambulatory ∧ agg.duration = 0 then
        ({ ghm with mode := 74 }, [])
      else if ghm_root_info.short_duration_treshold ≠ 0 ∧
          agg.duration < ghm_root_info.short_duration_treshold then
        ({ ghm with mode := 84 }, [])
      else if ghm.mode ≥ 65 ∧ ghm.mode < 69 then
        let severity0 := ghm.mode - 65
        let severity :=
          if ghm_root_info.childbirth_severity_list ≠ 0 then
            match (cmaCellsOf agg.index ghm_root_info.childbirth_severity_list).find?
                (fun c => c.test0 agg.stay.gestational_age && c.test1 severity0) with
            | some cell => cell.value
            | none => severity0
          else severity0
        ({ ghm with mode := 65 + LimitSeverityWithDuration severity agg.duration }, [])
      else if ghm.mode = 0 then
        let main_diag_info :=
          (agg.index.FindDiagnosis agg.stay.main_diagnosis).getD defaultDiagnosisInfo
        let linked_diag_info := agg.index.FindDiagnosis agg.stay.linked_diagnosis
        let severity1 := maxComorbiditySeverity agg ghm_root_info main_diag_info linked_diag_info
        let severity :=
          if agg.age ≥ ghm_root_info.old_age_treshold ∧
              severity1 < ghm_root_info.old_severity_limit then
            severity1 + 1
          else if agg.age < ghm_root_info.young_age_treshold ∧
              severity1 < ghm_root_info.young_severity_limit then
            severity1 + 1
          else if agg.stay.exit.mode = 57 ∧ severity1 = 0 then 1
          else severity1
        ({ ghm with mode := 49 + LimitSeverityWithDuration severity agg.duration }, [])
      else (ghm, [])

/-- Full GHM classification (a_classifier.cc:1214, `ClassifyGhm`). -/
def ClassifyGhm (agg : ClassifyAggregate) : GhmCode × List Emission :=
  let r1 := RunGhmTree agg
  let r2 := RunGhmSeverity agg r1.1
  (r2.1, r1.2 ++ r2.2)

/-! ### GHS selector (a_classifier.cc:1224-1346) -/

/-- Authorization type of a unit (a_classifier.cc:1224,
`GetAuthorizationType`). -/
def GetAuthorizationType (aset : AuthorizationSet) (unit : Int) (date : Date) : Int :=
  if unit ≥ 10000 then unit % 100
  else if unit ≠ 0 then
    match aset.FindUnit unit date with
    | none => 0
    | some auth => auth.type
  else 0

/-- Unit-or-facility authorization test (a_classifier.cc:1241,
`TestAuthorization`). -/
def TestAuthorization (aset : AuthorizationSet) (unit : Int) (date : Date)
    (authorization : Int) : Bool :=
  GetAuthorizationType aset unit date = authorization ∨
    (aset.FindUnitAll 32767).any (fun a =>
      a.type = authorization ∧ a.date0.dle date ∧ date.dlt a.date1)

/-- Duration restricted to authorized units, with the flag that at
least one stay was authorized (duration loop of `TestGhs`). -/
def ghsUnitDuration (aset : AuthorizationSet) (authorization : Int) (stays : List Stay) :
    Int × Bool :=
  stays.foldl
    (fun acc stay =>
      if TestAuthorization aset stay.unit stay.exit.date authorization then
        (acc.1 + (if stay.exit.date ≠ stay.entry.date then stay.exit.date.sub stay.entry.date
                  else 1),
         true)
      else acc)
    (0, false)

/-- Eligibility predicate of one GHS access rule (a_classifier.cc:1256,
`TestGhs`). -/
def TestGhs (agg : ClassifyAggregate) (aset : AuthorizationSet) (gai : GhsAccessInfo) :
    Bool :=
  if gai.minimal_age ≠ 0 ∧ agg.age < gai.minimal_age then false
  else
    let dres :=
      if gai.unit_authorization ≠ 0 then ghsUnitDuration aset gai.unit_authorization agg.stays
      else (agg.duration, true)
    if ¬ dres.2 then false
    else if gai.bed_authorization ≠ 0 ∧
        ¬ agg.stays.any (fun s => s.bed_authorization = gai.bed_authorization) then false
    else if gai.minimal_duration ≠ 0 ∧ dres.1 < gai.minimal_duration then false
    else if gai.main_diagnosis_mask.value ≠ 0 ∧
        ¬ TestDiagnosis agg.index agg.stay.sex agg.stay.main_diagnosis
            gai.main_diagnosis_mask.offset gai.main_diagnosis_mask.value then false
    else if gai.diagnosis_mask.value ≠ 0 ∧
        ¬ agg.diagInfos.any (fun d =>
            TestDiagnosisInfo agg.stay.sex d gai.diagnosis_mask.offset gai.diagnosis_mask.value)
      then false
    else if ¬ gai.procedure_masks.all (fun mask =>
        agg.procInfos.any (fun p => TestProcedureInfo p mask.offset mask.value)) then false
    else true

/-- Search of the ordered access rules compatible with a GHM (the rule
loop of `ClassifyGhs`); 9999 when no rule matches. -/
def SearchGhs (agg : ClassifyAggregate) (aset : AuthorizationSet) (ghm : GhmCode) : Int :=
  match (agg.index.FindCompatibleGhs ghm).find? (fun g => TestGhs agg aset g) with
  | some g => g.ghs_public
  | none => 9999

/-- GHS selection (a_classifier.cc:1318, `ClassifyGhs`), including the
UHCD special case. -/
def ClassifyGhs (agg : ClassifyAggregate) (aset : AuthorizationSet) (ghm : GhmCode) : Int :=
  if ¬ ghm.IsValid ∨ ghm.IsError then 9999
  else
    let ghm' :=
      if agg.duration > 0 ∧ (agg.stays.headD emptyStay).entry.mode = 56 ∧
          (agg.stays.getLastD emptyStay).exit.mode = 56 then
        if agg.stays.all (fun s => GetAuthorizationType aset s.unit s.exit.date = 7) then
          (ClassifyGhm { agg with duration := 0 }).1
        else ghm
      else ghm
    SearchGhs agg aset ghm'

/-! ### Supplement counter (a_classifier.cc:1348-1562) -/

/-- Supplement categories (fields of `SupplementCounters`). -/
inductive SuppCat where
  | rea
  | reasi
  | si
  | src
  | nn1
  | nn2
  | nn3
  | rep
deriving DecidableEq

def SupplementCounters.get (c : SupplementCounters) : SuppCat → Int
  | .rea => c.rea
  | .reasi => c.reasi
  | .si => c.si
  | .src => c.src
  | .nn1 => c.nn1
  | .nn2 => c.nn2
  | .nn3 => c.nn3
  | .rep => c.rep

def SupplementCounters.set (c : SupplementCounters) : SuppCat → Int → SupplementCounters
  | .rea, v => { c with rea := v }
  | .reasi, v => { c with reasi := v }
  | .si, v => { c with si := v }
  | .src, v => { c with src := v }
  | .nn1, v => { c with nn1 := v }
  | .nn2, v => { c with nn2 := v }
  | .nn3, v => { c with nn3 := v }
  | .rep, v => { c with rep := v }

/-- Truncation to `int16_t` (the counters are 16-bit in the source). -/
def wrap16 (x : Int) : Int := (x + 32768).emod 65536 - 32768

/-- Add to a counter with the source's `int16_t` truncation. -/
def SupplementCounters.addWrap (c : SupplementCounters) (cat : SuppCat) (v : Int) :
    SupplementCounters :=
  c.set cat (wrap16 (c.get cat + v))

/-- Procedure-based reanimation test (a_classifier.cc:1348,
`TestSupplementRea`), counting loop. -/
def reaLoop (agg : ClassifyAggregate) (exit_date : Date) (treshold : Nat) :
    List ProcedureRealisation → Nat → Bool
  | [], _ => false
  | p :: ps, cnt =>
      if TestProcedure agg.index exit_date p 27 16 then true
      else if TestProcedure agg.index exit_date p 27 8 then
        if cnt + 1 ≥ treshold then true else reaLoop agg exit_date treshold ps (cnt + 1)
      else reaLoop agg exit_date treshold ps cnt

def TestSupplementRea (agg : ClassifyAggregate) (stay : Stay) (list2_treshold : Nat) :
    Bool :=
  if stay.igs2 ≥ 15 ∨ agg.age < 18 then
    reaLoop agg stay.exit.date list2_treshold stay.procedures 0
  else false

/-- Diagnosis loop of `TestSupplementSrc`: early `true` on the strong
mask, otherwise collect the cross-referenced procedures of the weak
mask. -/
def srcDiagLoop (agg : ClassifyAggregate) (o1 v1 o2 v2 : Nat) (pairs : List SrcPair) :
    List String → List String → Bool × List String
  | [], acc => (false, acc)
  | diag :: ds, acc =>
      if TestDiagnosis agg.index agg.stay.sex diag o1 v1 then (true, acc)
      else if TestDiagnosis agg.index agg.stay.sex diag o2 v2 then
        srcDiagLoop agg o1 v1 o2 v2 pairs ds
          (acc ++ (pairs.filter (fun pr => pr.diag = diag)).map (fun pr => pr.proc))
      else srcDiagLoop agg o1 v1 o2 v2 pairs ds acc

/-- Intensive-care (SRC) eligibility test (a_classifier.cc:1367,
`TestSupplementSrc`); `prevStay` is the stay preceding `stay` in the
cluster, if any. -/
def TestSupplementSrc (agg : ClassifyAggregate) (stay : Stay) (prevStay : Option Stay)
    (igs2_src_adjust : Int) (prev_reanimation : Bool) : Bool :=
  if prev_reanimation then true
  else if agg.age ≥ 18 ∧ stay.igs2 - igs2_src_adjust ≥ 15 then true
  else
    let r1 :=
      if stay.igs2 - igs2_src_adjust ≥ 7 ∨ agg.age < 18 then
        srcDiagLoop agg 21 16 21 8 agg.index.src_pairs0 stay.diagnoses []
      else (false, [])
    if r1.1 then true
    else
      let r2 :=
        if agg.age < 18 then
          srcDiagLoop agg 22 128 22 64 agg.index.src_pairs1 stay.diagnoses r1.2
        else (false, r1.2)
      if r2.1 then true
      else if stay.procedures.any (fun p => r2.2.any (fun dp => dp = p.proc)) then true
      else if stay.procedures.any (fun p => TestProcedure agg.index stay.exit.date p 38 1)
        then true
      else
        match prevStay with
        | some prev =>
            prev.procedures.any (fun p => TestProcedure agg.index stay.exit.date p 38 1)
        | none => false

/-- Category resolution of one stay (the `switch (auth_info->function)`
of `CountSupplements`); `none` when the unit's authorization is not in
the reference table (the loop `continue`s). -/
def resolveSupplement (agg : ClassifyAggregate) (aset : AuthorizationSet) (ghs : Int)
    (stay : Stay) (prevStay : Option Stay) (igs2_src_adjust : Int)
    (prev_reanimation : Bool) : Option (Option SuppCat × Nat × Bool) :=
  let auth_type := GetAuthorizationType aset stay.unit stay.exit.date
  match agg.index.FindAuthorization 1 auth_type with
  | none => none
  | some auth_info =>
      some (match auth_info.function with
        | 1 =>
            if agg.age < 2 ∧ ghs ≠ 5903 then (some .nn1, 1, false) else (none, 0, false)
        | 2 =>
            if agg.age < 2 ∧ ghs ≠ 5903 then (some .nn2, 3, false) else (none, 0, false)
        | 3 =>
            if agg.age < 2 ∧ ghs ≠ 5903 then
              if TestSupplementRea agg stay 1 then (some .nn3, 6, true)
              else (some .nn2, 3, false)
            else (none, 0, false)
        | 4 =>
            if TestSupplementRea agg stay 3 then (some .rea, 7, true)
            else (some .reasi, 5, false)
        | 6 =>
            if TestSupplementSrc agg stay prevStay igs2_src_adjust prev_reanimation then
              (some .src, 2, false)
            else (none, 0, false)
        | 8 => (some .si, 4, false)
        | 9 =>
            if ghs ≠ 5903 then
              if agg.age < 18 then
                if TestSupplementRea agg stay 1 then (some .rep, 8, true)
                else (some .reasi, 5, false)
              else
                if TestSupplementRea agg stay 3 then (some .rea, 7, true)
                else (some .reasi, 5, false)
            else (none, 0, false)
        | _ => (none, 0, false))

/-- Per-stay loop of `CountSupplements` (a_classifier.cc:1452-1561):
day attribution with the pending ambulatory run; `none` models the
increment through a null `ambu_counter` pointer. -/
def countSupplementsLoop (agg : ClassifyAggregate) (aset : AuthorizationSet) (ghs : Int)
    (igs2_src_adjust : Int) :
    List Stay → Option Stay → Bool → SupplementCounters →
    Option Stay → Nat → Option SuppCat → Option SupplementCounters
  | [], _, _, counters, ambu_stay, _, ambu_counter =>
      match ambu_stay with
      | none => some counters
      | some _ =>
          match ambu_counter with
          | none => none
          | some acat => some (counters.addWrap acat 1)
  | stay :: rest, prevStay, prev_rea, counters, ambu_stay, ambu_priority, ambu_counter =>
      match resolveSupplement agg aset ghs stay prevStay igs2_src_adjust prev_rea with
      | none =>
          countSupplementsLoop agg aset ghs igs2_src_adjust rest (some stay) prev_rea
            counters ambu_stay ambu_priority ambu_counter
      | some (counter, priority, reanimation) =>
          if stay.exit.date ≠ stay.entry.date then
            if ambu_stay.isSome ∧ ambu_priority ≥ priority then
              let counters1 :=
                match counter with
                | some cat =>
                    counters.addWrap cat (stay.exit.date.sub stay.entry.date +
                      (if stay.exit.mode = 57 then 1 else 0) - 1)
                | none => counters
              match ambu_counter with
              | none => none
              | some acat =>
                  countSupplementsLoop agg aset ghs igs2_src_adjust rest (some stay)
                    reanimation (counters1.addWrap acat 1) none 0 ambu_counter
            else
              let counters1 :=
                match counter with
                | some cat =>
                    counters.addWrap cat (stay.exit.date.sub stay.entry.date +
                      (if stay.exit.mode = 57 then 1 else 0))
                | none => counters
              countSupplementsLoop agg aset ghs igs2_src_adjust rest (some stay)
                reanimation counters1 none 0 ambu_counter
          else
            if priority > ambu_priority then
              countSupplementsLoop agg aset ghs igs2_src_adjust rest (some stay)
                reanimation counters (some stay) priority counter
            else
              countSupplementsLoop agg aset ghs igs2_src_adjust rest (some stay)
                reanimation counters ambu_stay ambu_priority ambu_counter

/-- Age-banded IGS2 adjustment of `CountSupplements`. -/
def igs2SrcAdjust (age : Int) : Int :=
  if age ≥ 80 then 18
  else if age ≥ 75 then 16
  else if age ≥ 70 then 15
  else if age ≥ 60 then 12
  else if age ≥ 40 then 7
  else 0

/-- Supplement day counting (a_classifier.cc:1426,
`CountSupplements`); the result is the delta added to the zeroed
counters of the enclosing `ClassifyResult`. -/
def CountSupplements (agg : ClassifyAggregate) (aset : AuthorizationSet) (ghs : Int) :
    Option SupplementCounters :=
  if ghs = 9999 then some SupplementCounters.zero
  else
    let adjust := igs2SrcAdjust agg.age
    let first := agg.stays.headD emptyStay
    let prev_rea0 := decide (first.entry.mode = 55 ∧ first.entry.origin = 82)
    countSupplementsLoop agg aset ghs adjust agg.stays none prev_rea0
      SupplementCounters.zero none 0 none

def c6index : TableIndex :=
  { emptyTableIndex with authorizations := [⟨1, 7, 2⟩, ⟨1, 3, 1⟩] }

def c6stay0 : Stay :=
  { emptyStay with
    unit := 10007
    entry := ⟨⟨2015, 1, 8⟩, 48, 0⟩
    exit := ⟨⟨2015, 1, 8⟩, 48, 0⟩ }

def c6stay1 : Stay :=
  { emptyStay with
    unit := 10003
    entry := ⟨⟨2015, 1, 8⟩, 48, 0⟩
    exit := ⟨⟨2015, 1, 10⟩, 48, 0⟩ }

def c6agg : ClassifyAggregate := ⟨c6index, [c6stay0, c6stay1], c6stay0, 0, 0, 2, [], [], 0⟩

def c6aset : AuthorizationSet := ⟨[]⟩

/-! ### Claim C7: the UHCD special case of ClassifyGhs -/

def c7ghmA : GhmCode := ⟨1, 67, 1, 90⟩

def c7ghmB : GhmCode := ⟨2, 67, 1, 90⟩

def c7rootA : GhmRootInfo := ⟨⟨1, 67, 1⟩, 0, false, 0, 0, 0, 0, 0, 0, ⟨0, 0⟩⟩

def c7rootB : GhmRootInfo := ⟨⟨2, 67, 1⟩, 0, false, 0, 0, 0, 0, 0, 0, ⟨0, 0⟩⟩

def c7gaiA : GhsAccessInfo := ⟨c7ghmA, 100, 100, 0, 0, 0, 0, ⟨0, 0⟩, ⟨0, 0⟩, []⟩

def c7gaiB : GhsAccessInfo := ⟨c7ghmB, 200, 200, 0, 0, 0, 0, ⟨0, 0⟩, ⟨0, 0⟩, []⟩

def c7index : TableIndex :=
  { emptyTableIndex with
    ghm_nodes := [.test 22 0 1 2 1, .ghm c7ghmA 0, .ghm c7ghmB 0],
    ghm_roots := [c7rootA, c7rootB],
    ghs := [c7gaiA, c7gaiB] }

def c7stay : Stay :=
  { emptyStay with
    unit := 10007
    entry := ⟨⟨2015, 1, 8⟩, 48, 0⟩
    exit := ⟨⟨2015, 1, 10⟩, 48, 0⟩ }

def c7agg : ClassifyAggregate := ⟨c7index, [c7stay], c7stay, 0, 0, 2, [], [], 0⟩

def c7aset : AuthorizationSet := ⟨[]⟩

def c7stayU : Stay :=
  { emptyStay with
    unit := 10007
    entry := ⟨⟨2015, 1, 8⟩, 56, 0⟩
    exit := ⟨⟨2015, 1, 10⟩, 56, 0⟩ }

def c7aggU : ClassifyAggregate := ⟨c7index, [c7stayU], c7stayU, 0, 0, 2, [], [], 0⟩

/-! ### Aggregate builder / validator (a_classifier.cc:19-759) -/

def ComputeAge (date birthdate : Date) : Int :=
  date.year - birthdate.year -
    (if date.month < birthdate.month ∨
        (date.month = birthdate.month ∧ date.day < birthdate.day) then 1 else 0)

/-- Strict date order, `a` after `b`. -/
def Date.dgt (a b : Date) : Bool := b.dlt a

/-- Attribute checks shared by the three diagnosis roles
(a_classifier.cc:248, `CheckDiagnosisErrors`); `error_codes` is the
role's error-code table. -/
def CheckDiagnosisErrors (agg : ClassifyAggregate) (diag_info : DiagnosisInfo)
    (error_codes : List Nat) : Bool × List Emission :=
  let attr := diag_info.attrs agg.stay.sex
  if attr.byte 5 &&& 2 ≠ 0 then setErrorW (error_codes.getD 0 0) 1
  else if attr.byte 0 = 0 then
    match attr.byte 1 with
    | 0 => setErrorW (error_codes.getD 1 0) 1
    | 1 => setErrorW (error_codes.getD 2 0) 1
    | 2 => setErrorW (error_codes.getD 3 0) 1
    | 3 => setErrorW (error_codes.getD 4 0) 1
    | _ => (true, [])
  else if attr.byte 0 = 23 ∧ attr.byte 1 = 14 then setErrorW (error_codes.getD 5 0) 1
  else if attr.byte 19 &&& 16 ≠ 0 ∧ agg.age < 9 then setErrorW (error_codes.getD 6 0) 1
  else if attr.byte 19 &&& 8 ≠ 0 ∧ agg.age ≥ 2 then setErrorW (error_codes.getD 7 0) 1
  else (true, [])

def main_diagnosis_errors : List Nat := [68, 113, 114, 115, 113, 180, 130, 133]

def linked_diagnosis_errors : List Nat := [95, 116, 117, 118, 0, 181, 131, 134]

def associate_diagnosis_errors : List Nat := [71, 0, 0, 119, 0, 182, 132, 135]

def insertSorted (x : Nat) : List Nat → List Nat
  | [] => [x]
  | y :: ys => if x ≤ y then x :: y :: ys else y :: insertSorted x ys

/-- Ascending sort of table positions (the `std::sort` over entry
pointers before deduplication). -/
def sortNat : List Nat → List Nat
  | [] => []
  | x :: xs => insertSorted x (sortNat xs)

def dedupAdjacentGo (prev : Nat) : List Nat → List Nat
  | [] => []
  | y :: ys => if y ≠ prev then y :: dedupAdjacentGo y ys else dedupAdjacentGo prev ys

/-- Deduplication loop over the sorted positions (a_classifier.cc:336). -/
def dedupAdjacent : List Nat → List Nat
  | [] => []
  | x :: xs => x :: dedupAdjacentGo x xs

/-- Diagnosis collection and validation for one stay (the stay loop of
`AppendValidDiagnoses`). -/
def appendDiagnosesStay (agg : ClassifyAggregate) (stay : Stay) :
    Bool × List Nat × List Emission :=
  let rMain :=
    match agg.index.FindDiagnosisIdx stay.main_diagnosis with
    | some i =>
        let c := CheckDiagnosisErrors agg (agg.index.diagAt i) main_diagnosis_errors
        (c.1, [i], c.2)
    | none =>
        let s := setErrorW 67 1
        (s.1, [], s.2)
  let rLinked :=
    if diagIsValid stay.linked_diagnosis then
      match agg.index.FindDiagnosisIdx stay.linked_diagnosis with
      | some i =>
          let c := CheckDiagnosisErrors agg (agg.index.diagAt i) linked_diagnosis_errors
          (c.1, [i], c.2)
      | none =>
          let s := setErrorW 94 1
          (s.1, ([] : List Nat), s.2)
    else (true, [], [])
  let rAssoc :=
    stay.diagnoses.foldl
      (fun acc diag =>
        if diag = stay.main_diagnosis ∨ diag = stay.linked_diagnosis then acc
        else
          match agg.index.FindDiagnosisIdx diag with
          | some i =>
              let c := CheckDiagnosisErrors agg (agg.index.diagAt i) associate_diagnosis_errors
              (acc.1 && c.1, acc.2.1 ++ [i], acc.2.2 ++ c.2)
          | none =>
              let s := setErrorW 70 1
              (acc.1 && s.1, acc.2.1, acc.2.2 ++ s.2))
      ((true : Bool), ([] : List Nat), ([] : List Emission))
  (rMain.1 && rLinked.1 && rAssoc.1,
   rMain.2.1 ++ rLinked.2.1 ++ rAssoc.2.1,
   rMain.2.2 ++ rLinked.2.2 ++ rAssoc.2.2)

/-- Diagnosis aggregation (a_classifier.cc:273,
`AppendValidDiagnoses`): per-stay collection then sort-deduplicate. -/
def AppendValidDiagnoses (agg : ClassifyAggregate) : Bool × List Nat × List Emission :=
  let r :=
    agg.stays.foldl
      (fun acc stay =>
        let s := appendDiagnosesStay agg stay
        (acc.1 && s.1, acc.2.1 ++ s.2.1, acc.2.2 ++ s.2.2))
      ((true : Bool), ([] : List Nat), ([] : List Emission))
  (r.1, dedupAdjacent (sortNat r.2.1), r.2.2)

def procIsYYYY (s : String) : Bool := s.data.take 4 = ['Y', 'Y', 'Y', 'Y']

/-- Validation of one procedure realisation (the body of the procedure
loop of `AppendValidProcedures`, found case). -/
def checkProcedure (agg : ClassifyAggregate) (stay : Stay) (proc : ProcedureRealisation)
    (pinfo : ProcedureInfo) : Bool × List Emission :=
  let r148 :=
    if pinfo.byte 43 &&& 64 ≠ 0 ∧ stay.sex = 1 then
      ((true : Bool), [((148 : Nat), (0 : Nat))])
    else (true, [])
  let r149 :=
    if (agg.age ≠ 0 ∨ agg.age_days > 28) ∧ pinfo.byte 44 &&& 32 ≠ 0 ∧
        (agg.stay.newborn_weight = 0 ∨ agg.stay.newborn_weight ≥ 3000) then
      setErrorW 149 1
    else (true, [])
  let rDate :=
    if stay.entry.date.dgt pinfo.limit_date1 then setErrorW 78 1
    else if stay.exit.date.dlt pinfo.limit_date0 then setErrorW 79 1
    else if proc.date.isNull ∨ proc.date.dlt pinfo.limit_date0 ∨
        proc.date.dgt pinfo.limit_date1 then
      if pinfo.byte 41 &&& 2 ≠ 0 then setErrorW 142 1
      else if ¬ proc.date.isNull then ((true : Bool), [((102 : Nat), (0 : Nat))])
      else (true, [])
    else (true, [])
  let rAct :=
    if ¬ procIsYYYY proc.proc then
      let extra := proc.activities &&& (255 ^^^ (pinfo.activities &&& 255))
      if extra ≠ 0 then
        let rA := if extra &&& (255 ^^^ 62) ≠ 0 then setErrorW 103 1 else (true, [])
        let extra2 := extra &&& 62
        let rB := if extra2 &&& 16 ≠ 0 then setErrorW 110 1 else (true, [])
        let rC :=
          if extra2 &&& (255 ^^^ 16) ≠ 0 then ((true : Bool), [((111 : Nat), (0 : Nat))])
          else (true, [])
        (rA.1 && rB.1 && rC.1, rA.2 ++ rB.2 ++ rC.2)
      else (true, [])
    else (true, [])
  (r148.1 && r149.1 && rDate.1 && rAct.1, r148.2 ++ r149.2 ++ rDate.2 ++ rAct.2)

/-- Procedure aggregation (a_classifier.cc:348,
`AppendValidProcedures`): validation, activity-mask union, then
sort-deduplicate; returns (valid, positions, activities, emissions). -/
def AppendValidProcedures (agg : ClassifyAggregate) :
    Bool × List Nat × Nat × List Emission :=
  let r :=
    agg.stays.foldl
      (fun accS stay =>
        stay.procedures.foldl
          (fun acc proc =>
            match agg.index.FindProcedureIdx proc.proc proc.phase stay.exit.date with
            | some i =>
                let c := checkProcedure agg stay proc (agg.index.procAt i)
                (acc.1 && c.1, acc.2.1 ++ [i], acc.2.2.1 ||| proc.activities,
                 acc.2.2.2 ++ c.2)
            | none =>
                if (agg.index.FindProceduresByCode proc.proc).any
                    (fun p => p.phase = proc.phase) then acc
                else
                  let s := setErrorW 73 1
                  (acc.1 && s.1, acc.2.1, acc.2.2.1, acc.2.2.2 ++ s.2))
          accS)
      ((true : Bool), ([] : List Nat), (0 : Nat), ([] : List Emission))
  (r.1, dedupAdjacent (sortNat r.2.1), r.2.2.1, r.2.2.2)

/-- Shared malformed/missing/incoherent date check
(a_classifier.cc:439, `CheckDateErrors`). -/
def CheckDateErrors (malformed_flag : Bool) (date : Date) (error_codes : List Nat) :
    Bool × List Emission :=
  if malformed_flag then setErrorW (error_codes.getD 0 0) 1
  else if date.isNull then setErrorW (error_codes.getD 1 0) 1
  else if ¬ date.IsValid then setErrorW (error_codes.getD 2 0) 1
  else (true, [])

/-- Entry mode and origin checks of one stay (a_classifier.cc:497). -/
def checkEntryModeOrigin (stay : Stay) : Bool × List Emission :=
  if stay.error_mask.malformedEntryMode ∨ stay.error_mask.malformedEntryOrigin then
    setErrorW 25 1
  else if stay.entry.mode = 48 ∨ stay.entry.mode = 54 then
    let rA := if stay.entry.mode = 48 ∧ stay.entry.origin = 54 then setErrorW 25 1
      else (true, [])
    let rB := if stay.entry.mode = 54 ∧ stay.entry.origin = 82 then setErrorW 25 1
      else (true, [])
    let rC :=
      if stay.entry.origin = 49 ∨ stay.entry.origin = 50 ∨ stay.entry.origin = 51 ∨
          stay.entry.origin = 52 ∨ stay.entry.origin = 54 ∨ stay.entry.origin = 82 then
        ((true : Bool), ([] : List Emission))
      else if stay.entry.origin = 0 then setErrorW 53 1
      else setErrorW 25 1
    (rA.1 && rB.1 && rC.1, rA.2 ++ rB.2 ++ rC.2)
  else if stay.entry.mode = 55 then
    if stay.entry.origin = 49 ∨ stay.entry.origin = 50 ∨ stay.entry.origin = 51 ∨
        stay.entry.origin = 52 ∨ stay.entry.origin = 54 ∨ stay.entry.origin = 82 then
      (true, [])
    else if stay.entry.origin = 0 then setErrorW 53 1
    else setErrorW 25 1
  else if stay.entry.mode = 56 then
    if stay.entry.origin = 0 ∨ stay.entry.origin = 53 ∨ stay.entry.origin = 55 then
      (true, [])
    else setErrorW 25 1
  else if stay.entry.mode = 0 then setErrorW 24 1
  else setErrorW 25 1

/-- Exit mode and destination checks of one stay (a_classifier.cc:541). -/
def checkExitModeDestination (stay : Stay) : Bool × List Emission :=
  if stay.error_mask.malformedExitMode ∨ stay.error_mask.malformedExitDestination then
    setErrorW 34 1
  else if stay.exit.mode = 48 ∨ stay.exit.mode = 54 ∨ stay.exit.mode = 55 then
    if stay.exit.destination = 49 ∨ stay.exit.destination = 50 ∨
        stay.exit.destination = 51 ∨ stay.exit.destination = 52 ∨
        stay.exit.destination = 54 then
      (true, [])
    else if stay.exit.destination = 0 then setErrorW 54 1
    else setErrorW 34 1
  else if stay.exit.mode = 56 then
    if stay.exit.destination = 0 ∨ stay.exit.destination = 55 then (true, [])
    else setErrorW 34 1
  else if stay.exit.mode = 57 then
    if stay.exit.destination ≠ 0 then setErrorW 34 1 else (true, [])
  else if stay.exit.mode = 0 then setErrorW 33 1
  else setErrorW 34 1

/-- Per-stay structural checks of `CheckMainErrors` (the body of the
stay loop, a_classifier.cc:471-606). -/
def checkStayMainErrors (stays_len : Nat) (stay : Stay) : Bool × List Emission :=
  let rSex :=
    if stay.error_mask.malformedSex then setErrorW 17 1
    else if stay.sex ≠ 0 ∧ stay.sex ≠ 1 then
      setErrorW (if stay.sex ≠ 0 then 17 else 16) 1
    else (true, [])
  let rBirth := CheckDateErrors stay.error_mask.malformedBirthdate stay.birthdate
    [14, 13, 39]
  let rBirthOrder :=
    if stay.birthdate.dgt stay.entry.date ∧ stay.birthdate.IsValid ∧
        stay.entry.date.IsValid then
      setErrorW 15 1
    else (true, [])
  let rEntryDate := CheckDateErrors stay.error_mask.malformedEntryDate stay.entry.date
    [20, 19, 21]
  let rExitDate := CheckDateErrors stay.error_mask.malformedExitDate stay.exit.date
    [29, 28, 30]
  let rDateOrder :=
    if stay.exit.date.dlt stay.entry.date ∧ stay.entry.date.IsValid ∧
        stay.exit.date.IsValid then
      setErrorW 32 1
    else (true, [])
  let rEntry := checkEntryModeOrigin stay
  let rExit := checkExitModeDestination stay
  let rSessions :=
    if stay.error_mask.malformedSessionCount then setErrorW 36 1
    else
      let rA := if stays_len > 1 ∧ stay.session_count > 0 then setErrorW 37 1
        else (true, [])
      let rB :=
        if stay.session_count < 0 ∨ stay.session_count ≥ 32 then
          ((true : Bool), [((66 : Nat), (0 : Nat))])
        else (true, [])
      (rA.1 && rB.1, rA.2 ++ rB.2)
  let rDiag :=
    let rA := if stay.error_mask.malformedMainDiagnosis then setErrorW 41 1
      else if ¬ diagIsValid stay.main_diagnosis then setErrorW 40 1
      else (true, [])
    let rB := if stay.error_mask.malformedLinkedDiagnosis then setErrorW 51 1
      else (true, [])
    let rC := if stay.error_mask.malformedAssociatedDiagnosis then setErrorW 42 1
      else (true, [])
    (rA.1 && rB.1 && rC.1, rA.2 ++ rB.2 ++ rC.2)
  (rSex.1 && rBirth.1 && rBirthOrder.1 && rEntryDate.1 && rExitDate.1 && rDateOrder.1 &&
     rEntry.1 && rExit.1 && rSessions.1 && rDiag.1,
   rSex.2 ++ rBirth.2 ++ rBirthOrder.2 ++ rEntryDate.2 ++ rExitDate.2 ++ rDateOrder.2 ++
     rEntry.2 ++ rExit.2 ++ rSessions.2 ++ rDiag.2)

/-- Continuity checks between consecutive stays (a_classifier.cc:609). -/
def checkContinuity (prev stay : Stay) : Bool × List Emission :=
  let rSex :=
    if stay.sex ≠ prev.sex ∧ (stay.sex = 0 ∨ stay.sex = 1) then setErrorW 46 1
    else (true, [])
  let rBirth :=
    if stay.birthdate ≠ prev.birthdate ∧ stay.birthdate.IsValid then setErrorW 45 1
    else (true, [])
  let rMode :=
    if stay.entry.mode = 48 then
      if prev.exit.mode ≠ 48 then
        let a := setErrorW 27 1
        let b := setErrorW 49 1
        (a.1, a.2 ++ b.2)
      else if stay.entry.date ≠ prev.exit.date ∧
          stay.entry.date.sub prev.exit.date ≠ 1 then
        setErrorW 50 1
      else (true, [])
    else if stay.entry.mode = 54 then
      if stay.entry.origin ≠ 49 ∨ prev.exit.mode ≠ 54 then
        let a := setErrorW 27 1
        let b := setErrorW 49 1
        (a.1, a.2 ++ b.2)
      else if stay.entry.date ≠ prev.exit.date then setErrorW 23 1
      else (true, [])
    else setErrorW 27 1
  (rSex.1 && rBirth.1 && rMode.1, rSex.2 ++ rBirth.2 ++ rMode.2)

/-- Structural and continuity checks of a cluster
(a_classifier.cc:453, `CheckMainErrors`). -/
def CheckMainErrors (stays : List Stay) : Bool × List Emission :=
  let first := stays.headD emptyStay
  let last := stays.getLastD emptyStay
  let rFirst :=
    if first.entry.mode = 54 ∧ first.entry.origin = 49 then setErrorW 26 1
    else (true, [])
  let rLast :=
    if last.exit.mode = 54 ∧ last.exit.destination = 49 then setErrorW 35 1
    else (true, [])
  let rStays :=
    stays.foldl
      (fun acc stay =>
        let c := checkStayMainErrors stays.length stay
        (acc.1 && c.1, acc.2 ++ c.2))
      ((true : Bool), ([] : List Emission))
  let rCont :=
    match stays with
    | [] => ((true : Bool), ([] : List Emission))
    | s0 :: rest =>
        let f :=
          rest.foldl
            (fun (acc : Bool × List Emission × Stay) stay =>
              let c := checkContinuity acc.2.2 stay
              (acc.1 && c.1, acc.2.1 ++ c.2, stay))
            ((true : Bool), ([] : List Emission), s0)
        (f.1, f.2.1)
  (rFirst.1 && rLast.1 && rStays.1 && rCont.1,
   rFirst.2 ++ rLast.2 ++ rStays.2 ++ rCont.2)

/-- Aggregate-level checks (a_classifier.cc:647,
`CheckAggregateErrors`): session counts, stillbirth, newborn weight. -/
def CheckAggregateErrors (agg : ClassifyAggregate) : Bool × List Emission :=
  let rSessions :=
    if TestDiagnosis agg.index agg.stay.sex agg.stay.main_diagnosis 8 2 then
      if agg.duration = 0 ∧ agg.stay.session_count = 0 then
        if ¬ agg.procInfos.any (fun p => p.byte 44 &&& 64 ≠ 0) then
          ((true : Bool), [((145 : Nat), (0 : Nat))])
        else (true, [])
      else if agg.stay.session_count > agg.duration + 1 then
        ((true : Bool), [((146 : Nat), (0 : Nat))])
      else (true, [])
    else (true, [])
  let rStillborn :=
    agg.stays.foldl
      (fun (acc : Bool × List Emission) stay =>
        if diagMatches stay.main_diagnosis "P95" then
          if stay.exit.mode ≠ 57 then
            let a := setErrorW 143 1
            let b := setErrorW 147 1
            (acc.1 && a.1, acc.2 ++ a.2 ++ b.2)
          else if agg.stays.length > 1 ∨ stay.entry.mode ≠ 56 ∨
              stay.birthdate ≠ stay.entry.date ∨ stay.newborn_weight = 0 ∨
              stay.exit.date ≠ stay.entry.date then
            let a := setErrorW 147 1
            (acc.1 && a.1, acc.2 ++ a.2)
          else acc
        else acc)
      ((true : Bool), ([] : List Emission))
  let rNewborn :=
    if agg.stay.error_mask.malformedNewbornWeight then setErrorW 82 1
    else if agg.age_days < 29 ∧ agg.stay.newborn_weight = 0 then setErrorW 168 1
    else if agg.stay.newborn_weight > 0 ∧ agg.stay.newborn_weight < 100 then
      setErrorW 128 1
    else (true, [])
  (rSessions.1 && rStillborn.1 && rNewborn.1, rSessions.2 ++ rStillborn.2 ++ rNewborn.2)

/-- Procedure scan of one stay in `FindMainStay`: `none` when a
type-determining procedure short-circuits the selection, otherwise the
graduated procedure priority. -/
def findMainStayProcLoop (index : TableIndex) (exit_date : Date) (duration : Int) :
    List ProcedureRealisation → Nat → Option Nat
  | [], pp => some pp
  | proc :: ps, pp =>
      match index.FindProcedure proc.proc proc.phase exit_date with
      | none => findMainStayProcLoop index exit_date duration ps pp
      | some pinfo =>
          if pinfo.byte 0 &&& 128 ≠ 0 ∧ pinfo.byte 23 &&& 128 = 0 then none
          else
            let pp' :=
              if pp < 3 ∧ pinfo.byte 38 &&& 2 ≠ 0 then 3
              else if pp < 2 ∧ duration ≤ 1 ∧ pinfo.byte 39 &&& 128 ≠ 0 then 2
              else if pp < 1 ∧ duration = 0 ∧ pinfo.byte 39 &&& 64 ≠ 0 then 1
              else pp
            findMainStayProcLoop index exit_date duration ps pp'

/-- Accumulated state of the `FindMainStay` loop; stay pointers are
positions in the cluster. -/
structure MainStayState where
  max_duration : Int
  zx_pos : Option Nat
  zx_duration : Int
  trauma_pos : Option Nat
  last_trauma_pos : Option Nat
  ignore_trauma : Bool
  score_pos : Option Nat
  base_score : Int
  min_score : Int
deriving DecidableEq

def initMainStayState : MainStayState :=
  ⟨-1, none, -1, none, none, false, none, 0, 2147483647⟩

/-- Main loop of `FindMainStay` (a_classifier.cc:146-220); `Sum.inl i`
is the early return on a type-determining procedure. -/
def findMainStayLoop (index : TableIndex) (duration : Int) :
    List Stay → Nat → MainStayState → Nat ⊕ MainStayState
  | [], _, st => Sum.inr st
  | stay :: rest, i, st =>
      match findMainStayProcLoop index stay.exit.date duration stay.procedures 0 with
      | none => Sum.inl i
      | some pp =>
          let stay_duration := stay.exit.date.sub stay.entry.date
          let score1 := st.base_score +
            (if pp = 3 then -999999 else if pp = 2 then -99999
             else if pp = 1 then -9999 else 0)
          let st1 :=
            if stay_duration > st.zx_duration ∧ stay_duration ≥ st.max_duration then
              if diagMatches stay.main_diagnosis "Z515" ∨
                  diagMatches stay.main_diagnosis "Z502" ∨
                  diagMatches stay.main_diagnosis "Z503" then
                { st with zx_pos := some i, zx_duration := stay_duration }
              else { st with zx_pos := none }
            else st
          let st2 :=
            if ¬ st1.ignore_trauma then
              if TestDiagnosis index stay.sex stay.main_diagnosis 21 4 then
                let stA := { st1 with last_trauma_pos := some i }
                if stay_duration > stA.max_duration then
                  { stA with trauma_pos := some i }
                else stA
              else { st1 with ignore_trauma := true }
            else st1
          let sb :=
            if TestDiagnosis index stay.sex stay.main_diagnosis 21 32 then
              (score1 + 150, st2.base_score)
            else if stay_duration ≥ 2 then (score1, st2.base_score + 100)
            else (score1, st2.base_score)
          let score2 := sb.1 + (if stay_duration = 0 then 2
            else if stay_duration = 1 then 1 else 0)
          let score3 := score2 +
            (if TestDiagnosis index stay.sex stay.main_diagnosis 21 2 then 201 else 0)
          let st3 := { st2 with base_score := sb.2 }
          let st4 :=
            if score3 < st3.min_score then
              { st3 with score_pos := some i, min_score := score3 }
            else st3
          let st5 :=
            if stay_duration > st4.max_duration then
              { st4 with max_duration := stay_duration }
            else st4
          findMainStayLoop index duration rest (i + 1) st5

/-- Value of a stay pointer for the final `last_trauma_stay >=
score_stay` address comparison (null is 0, elements are ordered by
position). -/
def ptrVal : Option Nat → Nat
  | none => 0
  | some i => i + 1

/-- Main-stay heuristic (a_classifier.cc:131, `FindMainStay`). -/
def FindMainStay (index : TableIndex) (stays : List Stay) (duration : Int) : Stay :=
  match findMainStayLoop index duration stays 0 initMainStayState with
  | Sum.inl i => stays.getD i emptyStay
  | Sum.inr st =>
      match st.zx_pos with
      | some i => stays.getD i emptyStay
      | none =>
          if ptrVal st.last_trauma_pos ≥ ptrVal st.score_pos then
            match st.trauma_pos with
            | some i => stays.getD i emptyStay
            | none => emptyStay
          else
            match st.score_pos with
            | some i => stays.getD i emptyStay
            | none => emptyStay

/-- Aggregate construction and validation (a_classifier.cc:697,
`Aggregate`): sentinel GHM on fatal failure, the zero GHM on success;
the aggregate is `none` on the early exits that leave the C++ output
aggregate unwritten. -/
def Aggregate (table_set : TableSet) (stays : List Stay) :
    GhmCode × Option ClassifyAggregate × List Emission :=
  let cm := CheckMainErrors stays
  if ¬ cm.1 then (ghm90Z00Z, none, cm.2)
  else
    match table_set.FindIndex (stays.getLastD emptyStay).exit.date with
    | none => (ghm90Z03Z, none, cm.2 ++ [(502, 2)])
    | some index =>
        let stay0 := stays.headD emptyStay
        let gest := stays.foldl
          (fun g s => if s.gestational_age > 0 then s.gestational_age else g)
          stay0.gestational_age
        let igs2 := stays.foldl (fun g s => if s.igs2 > g then s.igs2 else g) stay0.igs2
        let dur := stays.foldl (fun d s => d + s.exit.date.sub s.entry.date) 0
        let repStay :=
          { stay0 with
            gestational_age := gest
            igs2 := igs2
            exit := (stays.getLastD emptyStay).exit
            diagnoses := []
            procedures := [] }
        let agg0 : ClassifyAggregate :=
          { index := index
            stays := stays
            stay := repStay
            age := ComputeAge stay0.entry.date stay0.birthdate
            age_days := stay0.entry.date.sub stay0.birthdate
            duration := dur
            diagnoses := []
            procedures := []
            proc_activities := 0 }
        let rd := AppendValidDiagnoses agg0
        let agg1 := { agg0 with diagnoses := rd.2.1 }
        let rp := AppendValidProcedures agg1
        let agg2 := { agg1 with procedures := rp.2.1, proc_activities := rp.2.2.1 }
        let agg3 :=
          if stays.length > 1 then
            let main_stay := FindMainStay index stays agg2.duration
            { agg2 with
              stay :=
                { agg2.stay with
                  main_diagnosis := main_stay.main_diagnosis
                  linked_diagnosis := main_stay.linked_diagnosis } }
          else agg2
        let ra := CheckAggregateErrors agg3
        let ems := cm.2 ++ rd.2.2 ++ rp.2.2.2 ++ ra.2
        if ¬ (rd.1 && rp.1 && ra.1) then (ghm90Z00Z, some agg3, ems)
        else (GhmCode.zero, some agg3, ems)

/-! ### Pricing of an aggregate and the per-cluster pipeline
(a_classifier.cc:1581-1656) -/

/-- Aggregate-level GHS pricing (the second `PriceGhs` overload,
a_classifier.cc:1581). -/
def PriceGhsAgg (agg : ClassifyAggregate) (ghs : Int) : Int :=
  if ghs = 9999 then 0
  else
    match agg.index.FindGhsPrice ghs with
    | none => 0
    | some price_info => PriceGhs price_info agg.duration (agg.stay.exit.mode = 57)

/-- Supplement pricing (a_classifier.cc:1597, `PriceSupplements`):
total cents and the per-category cents added to the zeroed result. -/
def PriceSupplements (agg : ClassifyAggregate) (days : SupplementCounters) :
    Int × SupplementCounters :=
  let prices := agg.index.supplement_prices
  let cents : SupplementCounters :=
    ⟨days.rea * prices.rea, days.reasi * prices.reasi, days.si * prices.si,
     days.src * prices.src, days.nn1 * prices.nn1, days.nn2 * prices.nn2,
     days.nn3 * prices.nn3, days.rep * prices.rep⟩
  ((days.values.zip prices.values).foldl (fun t q => t + q.1 * q.2) 0, cents)

/-- Result of one cluster (`ClassifyResult`). -/
structure ClassifyResult where
  stays : List Stay
  ghm : GhmCode
  duration : Int
  main_error : Nat
  ghs : Int
  supplement_days : SupplementCounters
  ghs_price_cents : Int
  price_cents : Int
  supplement_cents : SupplementCounters
deriving DecidableEq

/-- One iteration of the cluster loop of `ClassifyRaw`
(a_classifier.cc:1622-1652): the result of the cluster and the final
error-set state; `errs_in` is the error set carried over from earlier
clusters, of which only `main_error` is reset. The C++ local
`ClassifyAggregate agg` is declared uninitialized in each iteration:
when `Aggregate` returns before filling it (`CheckMainErrors` failure,
or no table index — the latter path writes only the null `agg.index`),
the later reads `result.duration = agg.duration`, `ClassifyGhs`,
`CountSupplements`, `PriceGhs` and `PriceSupplements` all see the stack
slot's indeterminate contents, which in practice are the aggregate left
by the previous iteration. `agg_slot` is that carried slot content. -/
def classifyClusterResult (table_set : TableSet) (aset : AuthorizationSet)
    (cluster : List Stay) (errs_in : ClassifyErrorSet)
    (agg_slot : ClassifyAggregate) :
    ClassifyResult × ClassifyErrorSet :=
  let ra := Aggregate table_set cluster
  let agg := ra.2.1.getD agg_slot
  let ghm0 := ra.1
  let rg := if ¬ ghm0.IsError then ClassifyGhm agg else (ghm0, [])
  let ghm1 := rg.1
  let ems := ra.2.2 ++ (if ¬ ghm0.IsError then rg.2 else [])
  let errsF := applyEmissions { errs_in with main_error := 0 } ems
  let ghs := ClassifyGhs agg aset ghm1
  let days := (CountSupplements agg aset ghs).getD SupplementCounters.zero
  let ghs_price := PriceGhsAgg agg ghs
  let ps := PriceSupplements agg days
  ({ stays := cluster
     ghm := ghm1
     duration := agg.duration
     main_error := errsF.main_error
     ghs := ghs
     supplement_days := days
     ghs_price_cents := ghs_price
     price_cents := ghs_price + ps.1
     supplement_cents := ps.2 }, errsF)

/-- Batch loop (a_classifier.cc:1611, `ClassifyRaw`): splits the stay
stream into clusters and classifies each in turn, threading the reused
error set and the stack slot of the uninitialized local aggregate from
one iteration to the next; the slot after an iteration holds the built
aggregate when `Aggregate` built one, and its previous contents
otherwise. `init_slot` is the indeterminate initial slot content. -/
def ClassifyRaw (table_set : TableSet) (aset : AuthorizationSet)
    (cluster_mode : ClusterMode) :
    List Stay → ClassifyErrorSet → ClassifyAggregate → List ClassifyResult
  | [], _, _ => []
  | s :: rest, errs, slot =>
      let n := clusterRun cluster_mode s rest
      let r := classifyClusterResult table_set aset (s :: rest.take n) errs slot
      r.1 :: ClassifyRaw table_set aset cluster_mode (rest.drop n) r.2
        ((Aggregate table_set (s :: rest.take n)).2.1.getD slot)
termination_by stays => stays.length
decreasing_by
  simp only [List.length_cons, List.length_drop]
  omega

/-! ### Claim C5: dependence on the state carried between clusters -/

/-- A structurally valid 7-day stay (entry 2015-01-01 mode '8', exit
2015-01-08 mode '0' destination '1') whose main diagnosis is unknown
to the empty dictionary. -/
def c5stay7 : Stay :=
  { emptyStay with
    bill_id := 7
    sex := 0
    birthdate := ⟨1980, 1, 1⟩
    entry := ⟨⟨2015, 1, 1⟩, 56, 0⟩
    exit := ⟨⟨2015, 1, 8⟩, 48, 49⟩
    main_diagnosis := "A001" }

/-- Same stay stretched to 9 days (exit 2015-01-10). -/
def c5stay9 : Stay :=
  { emptyStay with
    bill_id := 9
    sex := 0
    birthdate := ⟨1980, 1, 1⟩
    entry := ⟨⟨2015, 1, 1⟩, 56, 0⟩
    exit := ⟨⟨2015, 1, 10⟩, 48, 49⟩
    main_diagnosis := "A001" }

/-- Relation preserved by `SetError` between two error-set states whose
observable main-error evolution coincides. -/
def errMainInv (s1 s2 : ClassifyErrorSet) : Prop :=
  (s1.main_error = 0 ∧ s2.main_error = 0) ∨
  (s1.main_error = s2.main_error ∧ s1.priority = s2.priority)

/-! ### Claim C8: BillId cluster with an unknown main diagnosis -/

def c8stay1 : Stay :=
  { emptyStay with
    bill_id := 42
    stay_id := 1
    sex := 0
    birthdate := ⟨1980, 1, 1⟩
    entry := ⟨⟨2015, 1, 5⟩, 56, 0⟩
    exit := ⟨⟨2015, 1, 6⟩, 48, 49⟩
    main_diagnosis := "A001" }

def c8stay2 : Stay :=
  { emptyStay with
    bill_id := 42
    stay_id := 2
    sex := 0
    birthdate := ⟨1980, 1, 1⟩
    entry := ⟨⟨2015, 1, 6⟩, 48, 49⟩
    exit := ⟨⟨2015, 1, 8⟩, 48, 49⟩
    main_diagnosis := "A001" }

def c8index : TableIndex :=
  { emptyTableIndex with
    limit_date0 := ⟨2015, 1, 1⟩
    limit_date1 := ⟨2016, 1, 1⟩ }

def c8tables : TableSet := ⟨[c8index]⟩

def c8aset : AuthorizationSet := ⟨[]⟩

/-! ## Theorems -/

/-! ### Claims C1 and C9: SetError semantics -/

/-- C1 counterexample: the claim's promotion condition requires
`p = stored priority` for the smaller-error tie-break, but `SetError`
promotes a numerically smaller error even at strictly lower priority:
from state (main_error 5, priority 2), `SetError 3 1` rewrites
main_error to 3 and priority to 1, where the claim says both are
unchanged. -/
theorem SetError_claimed_tiebreak_false :
    ¬ (∀ (s : ClassifyErrorSet) (e p : Nat), e ≠ 0 →
        e ∈ (SetError s e p).2.errors ∧
        ((s.main_error = 0 ∨ p > s.priority ∨ (p = s.priority ∧ e < s.main_error)) →
          (SetError s e p).2.main_error = e ∧ (SetError s e p).2.priority = p) ∧
        (¬ (s.main_error = 0 ∨ p > s.priority ∨ (p = s.priority ∧ e < s.main_error)) →
          (SetError s e p).2.main_error = s.main_error ∧
          (SetError s e p).2.priority = s.priority)) := by
  intro h
  have h5 := (h ⟨5, 2, [5]⟩ 3 1 (by decide)).2.2
  simp [SetError] at h5

/-- C1 (amended): a nonzero error is always recorded in the bitset, and
is promoted to `main_error` (with its priority stored) exactly when no
main error is set yet, or its priority is strictly greater than the
stored one, or the error code is numerically smaller than the current
main error (regardless of priority); otherwise main error and priority
are unchanged. -/
theorem SetError_promotion (s : ClassifyErrorSet) (e p : Nat) (he : e ≠ 0) :
    e ∈ (SetError s e p).2.errors ∧
    ((s.main_error = 0 ∨ p > s.priority ∨ e < s.main_error) →
      (SetError s e p).2.main_error = e ∧ (SetError s e p).2.priority = p) ∧
    (¬ (s.main_error = 0 ∨ p > s.priority ∨ e < s.main_error) →
      (SetError s e p).2.main_error = s.main_error ∧
      (SetError s e p).2.priority = s.priority) := by
  unfold SetError
  by_cases hc : s.main_error = 0 ∨ p > s.priority ∨ e < s.main_error <;>
    simp [he, hc]

/-- Closed instance of `SetError_promotion` at a concrete state. -/
theorem SetError_promotion_witness :
    3 ∈ (SetError ⟨5, 2, [5]⟩ 3 1).2.errors ∧
    ((5 = 0 ∨ 1 > 2 ∨ 3 < 5) →
      (SetError ⟨5, 2, [5]⟩ 3 1).2.main_error = 3 ∧
      (SetError ⟨5, 2, [5]⟩ 3 1).2.priority = 1) ∧
    (¬ (5 = 0 ∨ 1 > 2 ∨ 3 < 5) →
      (SetError ⟨5, 2, [5]⟩ 3 1).2.main_error = 5 ∧
      (SetError ⟨5, 2, [5]⟩ 3 1).2.priority = 2) :=
  SetError_promotion ⟨5, 2, [5]⟩ 3 1 (by decide)

/-! ### Claim C3: clustering reconstructs the input -/

theorem Cluster_cons (s : Stay) (rest : List Stay) (m : ClusterMode) :
    Cluster (s :: rest) m =
      (s :: rest.take (clusterRun m s rest), rest.drop (clusterRun m s rest)) := rfl

theorem ClusterAll_flatten_aux (m : ClusterMode) :
    ∀ (n : Nat) (stays : List Stay), stays.length ≤ n →
      (ClusterAll m stays).flatten = stays := by
  intro n
  induction n with
  | zero =>
    intro stays h
    have : stays = [] := List.length_eq_zero.mp (Nat.le_zero.mp h)
    subst this
    simp [ClusterAll]
  | succ n ih =>
    intro stays h
    match stays with
    | [] => simp [ClusterAll]
    | s :: rest =>
      rw [ClusterAll]
      have hlen : (rest.drop (clusterRun m s rest)).length ≤ n := by
        simp only [List.length_cons] at h
        simp only [List.length_drop]
        omega
      simp only [List.flatten_cons, ih _ hlen]
      simp [List.take_append_drop]

theorem ClusterAll_flatten (m : ClusterMode) (stays : List Stay) :
    (ClusterAll m stays).flatten = stays :=
  ClusterAll_flatten_aux m stays.length stays le_rfl

theorem clusterRun_disable (s : Stay) (rest : List Stay) :
    clusterRun .Disable s rest = 0 := by
  cases rest <;> simp [clusterRun, AreStaysCompatible]

theorem ClusterAll_disable_lengths_aux :
    ∀ (n : Nat) (stays : List Stay), stays.length ≤ n →
      ∀ c ∈ ClusterAll .Disable stays, c.length = 1 := by
  intro n
  induction n with
  | zero =>
    intro stays h c hc
    have : stays = [] := List.length_eq_zero.mp (Nat.le_zero.mp h)
    subst this
    simp [ClusterAll] at hc
  | succ n ih =>
    intro stays h c hc
    match stays with
    | [] => simp [ClusterAll] at hc
    | s :: rest =>
      rw [ClusterAll, clusterRun_disable] at hc
      simp only [List.take_zero, List.drop_zero] at hc
      rcases List.mem_cons.mp hc with h1 | hc
      · subst h1; rfl
      · have hlen : rest.length ≤ n := by
          simp only [List.length_cons] at h; omega
        exact ih rest hlen c hc

/-- C3: on a non-empty stay list, `Cluster` returns a non-empty prefix
and the exact remaining suffix; repeated clustering concatenates back to
the input, and in `Disable` mode every produced cluster has length 1. -/
theorem Cluster_decomposition (stays : List Stay) (m : ClusterMode)
    (hne : stays ≠ []) :
    (Cluster stays m).1 ≠ [] ∧
    (Cluster stays m).1 ++ (Cluster stays m).2 = stays ∧
    (ClusterAll m stays).flatten = stays ∧
    (m = .Disable → ∀ c ∈ ClusterAll m stays, c.length = 1) := by
  refine ⟨?_, ?_, ClusterAll_flatten m stays, ?_⟩
  · cases stays with
    | nil => exact absurd rfl hne
    | cons s rest => simp [Cluster]
  · cases stays with
    | nil => exact absurd rfl hne
    | cons s rest => simp [Cluster, List.take_append_drop]
  · rintro rfl
    exact ClusterAll_disable_lengths_aux stays.length stays le_rfl

/-- Closed instance of `Cluster_decomposition` on a concrete two-stay
list in BillId mode. -/
theorem Cluster_decomposition_witness :
    letI s : Stay :=
      ⟨42, 1, 1, Date.null, ⟨Date.null, 56, 0⟩, ⟨Date.null, 57, 0⟩,
        0, 0, 0, 0, 0, 0, StayErrorMask.clear, "", "", [], []⟩
    (Cluster [s, s] .BillId).1 ≠ [] ∧
    (Cluster [s, s] .BillId).1 ++ (Cluster [s, s] .BillId).2 = [s, s] ∧
    (ClusterAll .BillId [s, s]).flatten = [s, s] ∧
    (ClusterMode.BillId = .Disable →
      ∀ c ∈ ClusterAll .BillId [s, s], c.length = 1) :=
  Cluster_decomposition _ .BillId (by simp)

/-! ### Claim C4: GHS pricing -/

/-- C4 counterexample: at the exact `exh` boundary with a death exit the
price is surcharged, not the unadjusted base price: with base 10000,
`exh_treshold` 5, `exh_cents` 200, duration 5 and died, `PriceGhs`
returns 10200. -/
theorem PriceGhs_boundary_death_counterexample :
    letI p : GhsPriceInfo := ⟨100, 10000, 5, 2, 200, 500, 0⟩
    p.exh_treshold = 5 ∧ PriceGhs p 5 true = 10200 ∧ p.price_cents = 10000 := by
  refine ⟨rfl, ?_, rfl⟩
  decide

/-- C4 (amended): for a price entry with `exb_treshold ≤ exh_treshold`
and duration ≥ 0, the price is base minus the flat rebate (ExbOnce) or
minus `exb_cents × (exb_treshold − duration)` when
`duration < exb_treshold` and the patient did not die; base plus
`exh_cents × (duration + died − exh_treshold)` whenever
`duration + died > exh_treshold`; and exactly the unadjusted base at the
boundaries `duration = exb_treshold` and `duration = exh_treshold`
provided the patient did not die. -/
theorem PriceGhs_cases (p : GhsPriceInfo) (duration : Int) (death : Bool)
    (hdur : 0 ≤ duration) (hbx : p.exb_treshold ≤ p.exh_treshold) :
    letI died : Int := if death then 1 else 0
    (duration < p.exb_treshold ∧ death = false →
      PriceGhs p duration death =
        (if p.flags &&& 1 ≠ 0 then p.price_cents - p.exb_cents
         else p.price_cents - p.exb_cents * (p.exb_treshold - duration))) ∧
    (duration + died > p.exh_treshold →
      PriceGhs p duration death =
        p.price_cents + p.exh_cents * (duration + died - p.exh_treshold)) ∧
    (death = false ∧ (duration = p.exb_treshold ∨ duration = p.exh_treshold) →
      PriceGhs p duration death = p.price_cents) := by
  unfold PriceGhs
  refine ⟨?_, ?_, ?_⟩
  · rintro ⟨hlt, rfl⟩
    simp [hlt]
  · intro hgt
    cases death <;> simp_all <;> omega
  · rintro ⟨rfl, hb | hb⟩ <;> simp <;> omega

/-- Closed instance of `PriceGhs_cases`: base 10000, `exb_treshold` 3,
`exb_cents` 500 per day, duration 1, not died prices to 9000 (the spec's
worked example), and both boundaries return the base price. -/
theorem PriceGhs_cases_witness :
    letI p : GhsPriceInfo := ⟨100, 10000, 5, 3, 200, 500, 0⟩
    ((1 : Int) < p.exb_treshold ∧ false = false →
      PriceGhs p 1 false =
        (if p.flags &&& 1 ≠ 0 then p.price_cents - p.exb_cents
         else p.price_cents - p.exb_cents * (p.exb_treshold - 1))) ∧
    ((1 : Int) + 0 > p.exh_treshold →
      PriceGhs p 1 false = p.price_cents + p.exh_cents * (1 + 0 - p.exh_treshold)) ∧
    (false = false ∧ ((1 : Int) = p.exb_treshold ∨ (1 : Int) = p.exh_treshold) →
      PriceGhs p 1 false = p.price_cents) :=
  PriceGhs_cases ⟨100, 10000, 5, 3, 200, 500, 0⟩ 1 false (by decide) (by decide)

/-- Concrete evaluation backing the spec's worked pricing example. -/
theorem PriceGhs_spec_example :
    PriceGhs ⟨100, 10000, 5, 3, 200, 500, 0⟩ 1 false = 9000 := by decide

theorem runGhmTreeLoop_visits_le (agg : ClassifyAggregate) :
    ∀ (fuel node_idx : Nat) (ctx : RunGhmTreeContext),
      (runGhmTreeLoop agg fuel node_idx ctx).2.2 ≤ fuel := by
  intro fuel
  induction fuel with
  | zero => intro node_idx ctx; simp [runGhmTreeLoop]
  | succ n ih =>
    intro node_idx ctx
    rw [runGhmTreeLoop]
    cases agg.index.ghm_nodes.getD node_idx defaultGhmNode with
    | test f p0 p1 cc ci =>
        dsimp only
        split
        · simp
        · exact Nat.succ_le_succ (ih _ _)
    | ghm g err =>
        dsimp only
        split
        · simp
        · exact Nat.succ_le_succ (ih _ _)

/-- C2: the decision-tree traversal visits at most `node_count` nodes
(the fuel of the loop is the length of the node array), and whenever
the guard trips — the bound is exhausted or a test result falls outside
the node's child range — `RunGhmTree` returns the internal-error
sentinel "90Z03Z" with error 4 recorded at priority 2, the highest
priority in use; a traversal never loops forever. -/
theorem RunGhmTree_bounded_or_sentinel (agg : ClassifyAggregate) :
    (runGhmTreeLoop agg agg.index.ghm_nodes.length 0 (initialGhmContext agg)).2.2 ≤
      agg.index.ghm_nodes.length ∧
    ((runGhmTreeLoop agg agg.index.ghm_nodes.length 0 (initialGhmContext agg)).1 =
        .fuelOut ∨
      (runGhmTreeLoop agg agg.index.ghm_nodes.length 0 (initialGhmContext agg)).1 =
        .outOfRange →
      (RunGhmTree agg).1 = ghm90Z03Z ∧ (4, 2) ∈ (RunGhmTree agg).2) := by
  refine ⟨runGhmTreeLoop_visits_le agg _ _ _, ?_⟩
  intro h
  unfold RunGhmTree
  rcases hrun : runGhmTreeLoop agg agg.index.ghm_nodes.length 0 (initialGhmContext agg)
    with ⟨o, ems, v⟩
  rw [hrun] at h
  cases o with
  | reached g => simp at h
  | outOfRange => simp
  | fuelOut => simp

/-- Closed instance of `RunGhmTree_bounded_or_sentinel` on the empty
tree, whose traversal trips the loop guard immediately. -/
theorem RunGhmTree_bounded_or_sentinel_witness :
    (RunGhmTree emptyAggregate).1 = ghm90Z03Z ∧ (4, 2) ∈ (RunGhmTree emptyAggregate).2 :=
  (RunGhmTree_bounded_or_sentinel emptyAggregate).2 (Or.inl rfl)

/-! ### Claim C10: the pending ambulatory run never flushes through a
null counter -/

theorem resolveSupplement_some_counter (agg : ClassifyAggregate) (aset : AuthorizationSet)
    (ghs : Int) (stay : Stay) (prevStay : Option Stay) (adj : Int) (prev_rea : Bool)
    (c : Option SuppCat) (p : Nat) (r : Bool)
    (h : resolveSupplement agg aset ghs stay prevStay adj prev_rea = some (c, p, r))
    (hp : p ≠ 0) : c.isSome := by
  unfold resolveSupplement at h
  dsimp only at h
  rcases hfind : agg.index.FindAuthorization 1
      (GetAuthorizationType aset stay.unit stay.exit.date) with _ | ai
  · rw [hfind] at h; simp at h
  · rw [hfind] at h
    simp only [Option.some.injEq] at h
    split at h
    all_goals try split at h
    all_goals try split at h
    all_goals try split at h
    all_goals simp only [Prod.mk.injEq] at h
    all_goals rcases h with ⟨h1, h2, h3⟩
    all_goals first
      | exact absurd h2.symm hp
      | (rw [← h1]; rfl)

theorem countSupplementsLoop_isSome (agg : ClassifyAggregate) (aset : AuthorizationSet)
    (ghs : Int) (adj : Int) :
    ∀ (stays : List Stay) (prevStay : Option Stay) (prev_rea : Bool)
      (counters : SupplementCounters) (ambu_stay : Option Stay) (ambu_priority : Nat)
      (ambu_counter : Option SuppCat),
      (ambu_stay.isSome → ambu_counter.isSome) →
      (countSupplementsLoop agg aset ghs adj stays prevStay prev_rea counters
        ambu_stay ambu_priority ambu_counter).isSome := by
  intro stays
  induction stays with
  | nil =>
    intro prevStay prev_rea counters ambu_stay ap ac hinv
    rw [countSupplementsLoop.eq_def]
    cases ambu_stay with
    | none => simp
    | some s =>
        cases ac with
        | none => simp at hinv
        | some a => simp
  | cons stay rest ih =>
    intro prevStay prev_rea counters ambu_stay ap ac hinv
    rw [countSupplementsLoop.eq_def]
    rcases hres : resolveSupplement agg aset ghs stay prevStay adj prev_rea
      with _ | ⟨c, p, r⟩
    · simp only [hres]
      exact ih _ _ _ _ _ _ hinv
    · simp only [hres]
      split
      · split
        · rename_i habs
          have hac := hinv habs.1
          cases ac with
          | none => simp at hac
          | some a =>
              cases c with
              | none => exact ih _ _ _ _ _ _ (fun h => by simp at h)
              | some cat => exact ih _ _ _ _ _ _ (fun h => by simp at h)
        · cases c with
          | none => exact ih _ _ _ _ _ _ (fun h => by simp at h)
          | some cat => exact ih _ _ _ _ _ _ (fun h => by simp at h)
      · split
        · exact ih _ _ _ _ _ _ (fun _ =>
            resolveSupplement_some_counter agg aset ghs stay prevStay adj prev_rea
              c p r hres (by omega))
        · exact ih _ _ _ _ _ _ hinv

/-- C10: in `CountSupplements`, every code path that assigns a nonzero
priority also assigns a category counter, so a pending ambulatory run
always carries a counter and flushing it — on a later multi-day stay or
at the end of the cluster — never increments through a null pointer
(the `none` outcome of the loop is unreachable). -/
theorem CountSupplements_isSome (agg : ClassifyAggregate) (aset : AuthorizationSet)
    (ghs : Int) : (CountSupplements agg aset ghs).isSome := by
  unfold CountSupplements
  split
  · simp
  · exact countSupplementsLoop_isSome agg aset ghs _ _ _ _ _ _ _ _ (fun h => by simp at h)

/-! ### Claim C6: ambulatory day attribution -/

/-- C6: when a multi-day stay is processed with a pending ambulatory run
of higher-or-equal priority, the run's counter is incremented by one and
the stay's counter receives `(exit − entry) + died − 1` days; without
such a run the stay's counter receives the full `(exit − entry) + died`
days; hence in a two-stay cluster whose first stay has duration 0 and
resolved priority P1 > 0 and whose second stay is multi-day with
priority P2 < P1, the ambulatory day is attributed to the first stay's
category. -/
theorem CountSupplements_ambulatory_attribution (agg : ClassifyAggregate)
    (aset : AuthorizationSet) (ghs adj : Int) :
    (∀ (stay : Stay) (prevStay : Option Stay) (prev_rea : Bool)
       (counters : SupplementCounters) (ambu_stay : Option Stay) (ambu_priority : Nat)
       (acat cat : SuppCat) (p : Nat) (r : Bool),
       resolveSupplement agg aset ghs stay prevStay adj prev_rea = some (some cat, p, r) →
       stay.exit.date ≠ stay.entry.date →
       (ambu_stay.isSome → ambu_priority ≥ p →
         countSupplementsLoop agg aset ghs adj [stay] prevStay prev_rea counters
             ambu_stay ambu_priority (some acat) =
           some ((counters.addWrap cat
               (stay.exit.date.sub stay.entry.date +
                 (if stay.exit.mode = 57 then 1 else 0) - 1)).addWrap acat 1)) ∧
       (¬ (ambu_stay.isSome ∧ ambu_priority ≥ p) →
         ∀ ambu_counter : Option SuppCat,
           countSupplementsLoop agg aset ghs adj [stay] prevStay prev_rea counters
               ambu_stay ambu_priority ambu_counter =
             some (counters.addWrap cat
               (stay.exit.date.sub stay.entry.date +
                 (if stay.exit.mode = 57 then 1 else 0))))) ∧
    (∀ (stay0 stay1 : Stay) (prev_rea : Bool) (cat1 cat2 : SuppCat) (p1 p2 : Nat)
       (r1 r2 : Bool),
       resolveSupplement agg aset ghs stay0 none adj prev_rea = some (some cat1, p1, r1) →
       resolveSupplement agg aset ghs stay1 (some stay0) adj r1 = some (some cat2, p2, r2) →
       stay0.exit.date = stay0.entry.date →
       stay1.exit.date ≠ stay1.entry.date →
       0 < p1 → p2 < p1 →
       countSupplementsLoop agg aset ghs adj [stay0, stay1] none prev_rea
           SupplementCounters.zero none 0 none =
         some ((SupplementCounters.zero.addWrap cat2
             (stay1.exit.date.sub stay1.entry.date +
               (if stay1.exit.mode = 57 then 1 else 0) - 1)).addWrap cat1 1)) := by
  constructor
  · intro stay prevStay prev_rea counters ambu_stay ambu_priority acat cat p r hres hmd
    constructor
    · intro hsome hge
      rw [countSupplementsLoop.eq_def]
      simp only [hres]
      rw [if_pos hmd, if_pos ⟨hsome, hge⟩]
      rfl
    · intro hnot ambu_counter
      rw [countSupplementsLoop.eq_def]
      simp only [hres]
      rw [if_pos hmd, if_neg hnot]
      rfl
  · intro stay0 stay1 prev_rea cat1 cat2 p1 p2 r1 r2 h0 h1 hz hm hp1 hp2
    rw [countSupplementsLoop.eq_def]
    simp only [h0]
    rw [if_neg (by simp [hz]), if_pos (by omega)]
    rw [countSupplementsLoop.eq_def]
    simp only [h1]
    rw [if_pos hm, if_pos ⟨by simp, by omega⟩]
    rfl

/-- Closed instance of `CountSupplements_ambulatory_attribution`: an
ambulatory stay of category nn2 (priority 3) followed by a two-day stay
of category nn1 (priority 1); the ambulatory day goes to nn2. -/
theorem CountSupplements_ambulatory_attribution_witness :
    countSupplementsLoop c6agg c6aset 100 0 [c6stay0, c6stay1] none false
        SupplementCounters.zero none 0 none =
      some ((SupplementCounters.zero.addWrap .nn1
          (c6stay1.exit.date.sub c6stay1.entry.date +
            (if c6stay1.exit.mode = 57 then 1 else 0) - 1)).addWrap .nn2 1) :=
  (CountSupplements_ambulatory_attribution c6agg c6aset 100 0).2 c6stay0 c6stay1 false
    .nn2 .nn1 3 1 false false (by decide) (by decide) (by decide) (by decide)
    (by decide) (by decide)

/-- C7 counterexample: the claim omits the guards of the UHCD special
case — the duration must be positive and the cluster must start and end
with entry/exit mode '8'. Here every stay uses only authorization
type 7, yet with entry/exit mode '0' the GHS search uses the original
GHM (rule match 100), not the GHM recomputed at duration 0 (rule match
200). -/
theorem ClassifyGhs_uhcd_guard_counterexample :
    c7ghmA.IsValid ∧ ¬ c7ghmA.IsError ∧
    (∀ stay ∈ c7agg.stays, GetAuthorizationType c7aset stay.unit stay.exit.date = 7) ∧
    ClassifyGhs c7agg c7aset c7ghmA = 100 ∧
    SearchGhs c7agg c7aset (ClassifyGhm { c7agg with duration := 0 }).1 = 200 ∧
    ClassifyGhs c7agg c7aset c7ghmA ≠
      SearchGhs c7agg c7aset (ClassifyGhm { c7agg with duration := 0 }).1 := by
  decide

/-- C7 (amended): for a valid, non-error GHM, when the cluster has
positive duration, starts with entry mode '8', ends with exit mode '8',
and every stay used only the UHCD unit authorization type 7, the GHS
access rules are searched with the GHM recomputed by `ClassifyGhm` on
the aggregate with its duration forced to 0. -/
theorem ClassifyGhs_uhcd_recompute (agg : ClassifyAggregate) (aset : AuthorizationSet)
    (ghm : GhmCode) (hval : ghm.IsValid) (herr : ¬ ghm.IsError)
    (hdur : agg.duration > 0)
    (hentry : (agg.stays.headD emptyStay).entry.mode = 56)
    (hexit : (agg.stays.getLastD emptyStay).exit.mode = 56)
    (huhcd : ∀ stay ∈ agg.stays, GetAuthorizationType aset stay.unit stay.exit.date = 7) :
    ClassifyGhs agg aset ghm =
      SearchGhs agg aset (ClassifyGhm { agg with duration := 0 }).1 := by
  have hall : agg.stays.all
      (fun s => decide (GetAuthorizationType aset s.unit s.exit.date = 7)) = true := by
    rw [List.all_eq_true]
    intro s hs
    simpa using huhcd s hs
  unfold ClassifyGhs
  rw [if_neg (by simp [hval, herr])]
  rw [if_pos ⟨hdur, hentry, hexit⟩]
  rw [if_pos hall]

/-- Closed instance of `ClassifyGhs_uhcd_recompute` on an all-UHCD
cluster with entry and exit mode '8'. -/
theorem ClassifyGhs_uhcd_recompute_witness :
    ClassifyGhs c7aggU c7aset c7ghmA =
      SearchGhs c7aggU c7aset (ClassifyGhm { c7aggU with duration := 0 }).1 :=
  ClassifyGhs_uhcd_recompute c7aggU c7aset c7ghmA (by decide) (by decide) (by decide)
    (by decide) (by decide) (by decide)

/-! ### Claim C9: error code 0 records nothing -/

/-- C9: `SetError` with error code 0 returns true and leaves the error
set unchanged; consequently a validation condition whose entry in the
associated-diagnosis error-code table is 0 (the imprecise and
reserved-code rows) emits nothing and does not invalidate the
aggregate. -/
theorem SetError_zero_noop :
    (∀ (s : ClassifyErrorSet) (p : Nat), SetError s 0 p = (true, s)) ∧
    (∀ (agg : ClassifyAggregate) (d : DiagnosisInfo),
      (d.attrs agg.stay.sex).byte 5 &&& 2 = 0 →
      (d.attrs agg.stay.sex).byte 0 = 0 →
      ((d.attrs agg.stay.sex).byte 1 = 0 ∨ (d.attrs agg.stay.sex).byte 1 = 1 ∨
        (d.attrs agg.stay.sex).byte 1 = 3) →
      CheckDiagnosisErrors agg d associate_diagnosis_errors = (true, [])) := by
  constructor
  · intro s p
    simp [SetError]
  · intro agg d h5 h0 h1
    unfold CheckDiagnosisErrors
    dsimp only
    rw [if_neg (by simp [h5]), if_pos h0]
    rcases h1 with h | h | h <;> rw [h] <;> rfl

/-- Closed instance of `SetError_zero_noop` at a concrete error set and
the all-zero dictionary entry. -/
theorem SetError_zero_noop_witness :
    SetError ⟨9, 2, [9]⟩ 0 3 = (true, ⟨9, 2, [9]⟩) ∧
    CheckDiagnosisErrors emptyAggregate defaultDiagnosisInfo associate_diagnosis_errors
      = (true, []) :=
  ⟨SetError_zero_noop.1 ⟨9, 2, [9]⟩ 3,
   SetError_zero_noop.2 emptyAggregate defaultDiagnosisInfo (by decide) (by decide)
     (Or.inl (by decide))⟩

theorem SetError_main_inv (e p : Nat) (s1 s2 : ClassifyErrorSet)
    (h : errMainInv s1 s2) : errMainInv (SetError s1 e p).2 (SetError s2 e p).2 := by
  by_cases he : e = 0
  · subst he
    simpa [SetError] using h
  · rcases h with ⟨h1, h2⟩ | ⟨hm, hp⟩
    · have c1 : s1.main_error = 0 ∨ p > s1.priority ∨ e < s1.main_error := Or.inl h1
      have c2 : s2.main_error = 0 ∨ p > s2.priority ∨ e < s2.main_error := Or.inl h2
      unfold SetError
      simp only [if_neg he]
      rw [if_pos c1, if_pos c2]
      right
      exact ⟨rfl, rfl⟩
    · by_cases hc : s2.main_error = 0 ∨ p > s2.priority ∨ e < s2.main_error
      · have hc1 : s1.main_error = 0 ∨ p > s1.priority ∨ e < s1.main_error := by
          rw [hm, hp]; exact hc
        unfold SetError
        simp only [if_neg he]
        rw [if_pos hc1, if_pos hc]
        right
        exact ⟨rfl, rfl⟩
      · have hc1 : ¬ (s1.main_error = 0 ∨ p > s1.priority ∨ e < s1.main_error) := by
          rw [hm, hp]; exact hc
        unfold SetError
        simp only [if_neg he]
        rw [if_neg hc1, if_neg hc]
        right
        exact ⟨hm, hp⟩

theorem applyEmissions_main_inv (ems : List Emission) :
    ∀ s1 s2 : ClassifyErrorSet, errMainInv s1 s2 →
      errMainInv (applyEmissions s1 ems) (applyEmissions s2 ems) := by
  induction ems with
  | nil => intro s1 s2 h; exact h
  | cons e rest ih =>
      intro s1 s2 h
      unfold applyEmissions at *
      simp only [List.foldl_cons]
      exact ih _ _ (SetError_main_inv e.1 e.2 s1 s2 h)

theorem applyEmissions_main_eq (ems : List Emission) (s1 s2 : ClassifyErrorSet)
    (h : errMainInv s1 s2) :
    (applyEmissions s1 ems).main_error = (applyEmissions s2 ems).main_error := by
  rcases applyEmissions_main_inv ems s1 s2 h with ⟨h1, h2⟩ | ⟨h1, _⟩
  · rw [h1, h2]
  · exact h1

/-- Unrolling of `ClassifyRaw` on a two-stay batch in `Disable` mode:
two singleton clusters, the error set and the aggregate slot threaded
from the first iteration into the second. -/
theorem ClassifyRaw_two_disable (table_set : TableSet) (aset : AuthorizationSet)
    (a b : Stay) (errs : ClassifyErrorSet) (slot : ClassifyAggregate) :
    ClassifyRaw table_set aset .Disable [a, b] errs slot =
      [(classifyClusterResult table_set aset [a] errs slot).1,
       (classifyClusterResult table_set aset [b]
          (classifyClusterResult table_set aset [a] errs slot).2
          ((Aggregate table_set [a]).2.1.getD slot)).1] := by
  rw [ClassifyRaw.eq_def]
  simp only [clusterRun_disable, List.take_zero, List.drop_zero]
  rw [ClassifyRaw.eq_def]
  simp only [clusterRun, List.take_nil, List.drop_nil]
  rw [ClassifyRaw.eq_def]

/-- C5 counterexample: within one `ClassifyRaw` batch the result
computed for a cluster does depend on the clusters processed before
it. In `Disable` mode the batches `[c5stay7, emptyStay]` and
`[c5stay9, emptyStay]` both submit the cluster `[emptyStay]` second;
that cluster fails `CheckMainErrors`, so `Aggregate` returns before
writing the local aggregate and `result.duration = agg.duration` reads
the stack slot left by the previous iteration: the reported duration is
7 after the 7-day first cluster and 9 after the 9-day one. -/
theorem classifyRaw_stale_aggregate_counterexample :
    (Cluster [c5stay7, emptyStay] .Disable).2 = [emptyStay] ∧
    (Cluster [c5stay9, emptyStay] .Disable).2 = [emptyStay] ∧
    (CheckMainErrors [emptyStay]).1 = false ∧
    (ClassifyRaw c8tables c8aset .Disable [c5stay7, emptyStay]
        ClassifyErrorSet.empty emptyAggregate).map (fun r => r.duration) =
      [7, 7] ∧
    (ClassifyRaw c8tables c8aset .Disable [c5stay9, emptyStay]
        ClassifyErrorSet.empty emptyAggregate).map (fun r => r.duration) =
      [9, 9] ∧
    ((ClassifyRaw c8tables c8aset .Disable [c5stay7, emptyStay]
        ClassifyErrorSet.empty emptyAggregate).map (fun r => r.duration)).getD 1 0 ≠
      ((ClassifyRaw c8tables c8aset .Disable [c5stay9, emptyStay]
        ClassifyErrorSet.empty emptyAggregate).map (fun r => r.duration)).getD 1 0 := by
  refine ⟨by decide, by decide, by decide, ?_, ?_, ?_⟩ <;>
    simp only [ClassifyRaw_two_disable] <;> decide

/-- C5 (amended): for a cluster on which `Aggregate` builds the
aggregate — the structural checks pass and a table index exists, so the
uninitialized-slot reads of the failure paths do not occur — the
`ClassifyResult` is a function of the tables, the authorization set and
the cluster alone: it is independent of the error-set state carried
over from earlier clusters (of which `ClassifyRaw` resets only
`main_error`; the main-error evolution from a zeroed main error is
independent of the stale priority and bitset) and of the contents of
the aggregate stack slot, and the cleared scratch buffers carry no
other state; in particular classifying such a cluster twice yields
bit-identical results. -/
theorem classifyClusterResult_built_independent (table_set : TableSet)
    (aset : AuthorizationSet) (cluster : List Stay) (e1 e2 : ClassifyErrorSet)
    (a1 a2 : ClassifyAggregate)
    (h : (Aggregate table_set cluster).2.1.isSome) :
    (classifyClusterResult table_set aset cluster e1 a1).1 =
      (classifyClusterResult table_set aset cluster e2 a2).1 := by
  obtain ⟨a, ha⟩ := Option.isSome_iff_exists.mp h
  unfold classifyClusterResult
  dsimp only
  rw [ha]
  simp only [Option.getD_some]
  congr 1
  all_goals first
    | rfl
    | exact applyEmissions_main_eq _ _ _ (Or.inl ⟨rfl, rfl⟩)

theorem classifyClusterResult_built_independent_witness :
    (Aggregate c8tables [c5stay7]).2.1.isSome = true ∧
    (classifyClusterResult c8tables c8aset [c5stay7] ⟨3, 2, [3]⟩
        { emptyAggregate with duration := 123 }).1 =
      (classifyClusterResult c8tables c8aset [c5stay7] ClassifyErrorSet.empty
        emptyAggregate).1 :=
  ⟨by decide,
   classifyClusterResult_built_independent c8tables c8aset [c5stay7] ⟨3, 2, [3]⟩
     ClassifyErrorSet.empty { emptyAggregate with duration := 123 } emptyAggregate
     (by decide)⟩

/-- C8: two structurally valid stays sharing bill id 42, forming a
3-day continuous stay, cluster together in BillId mode; their main
diagnosis is unknown to the (empty) dictionary, so classification
passes the structural checks, records error 67 in the bitset, reports
main error 67 and returns the sentinel GHM "90Z00Z". -/
theorem billid_unknown_diagnosis_scenario :
    (Cluster [c8stay1, c8stay2] .BillId).1 = [c8stay1, c8stay2] ∧
    (CheckMainErrors [c8stay1, c8stay2]).1 = true ∧
    (classifyClusterResult c8tables c8aset [c8stay1, c8stay2]
      ClassifyErrorSet.empty emptyAggregate).1.duration = 3 ∧
    (classifyClusterResult c8tables c8aset [c8stay1, c8stay2]
      ClassifyErrorSet.empty emptyAggregate).1.ghm = ghm90Z00Z ∧
    (classifyClusterResult c8tables c8aset [c8stay1, c8stay2]
      ClassifyErrorSet.empty emptyAggregate).1.main_error = 67 ∧
    67 ∈ (classifyClusterResult c8tables c8aset [c8stay1, c8stay2]
      ClassifyErrorSet.empty emptyAggregate).2.errors := by
  decide
